import Mathlib

/-!
Verification model of the portfolio metrics pipeline of this repository
(src/fondo_module.py and src/accion_module.py).

Modelling conventions:
* Python dictionaries (the stored position records, the provider `info`
  mapping, and the returned market-data / enriched records) are association
  lists `List (String × PyVal)` with first-match lookup; `Record.insert`
  overrides in place (as a Python dict literal or `{**a, **b}` merge does).
* Python numbers are rationals.  The historical close series delivered by
  `yf.Ticker(...).history(...)['Close']` holds numpy float64 values, while
  values coming from the `info` mapping are plain Python numbers; the two
  disagree on division by zero (numpy yields a non-finite float64 with a
  warning, Python raises ZeroDivisionError), so fetch-internal numbers carry
  a provenance flag `np` and a finiteness flag `fin` (see `FN`).  For a
  non-finite value only the `fin` flag is meaningful; its rational payload
  is irrelevant and no theorem below depends on it.
* Fallible operations live in `Except PyErr`; the blanket
  `except Exception` handlers of the source map any error back to the
  documented fallback (`None` for the quote fetch, the original record for
  the metrics calculator).
* `round(x, 2)` is `round2`; Python's banker's rounding of binary doubles
  differs from rational half-up rounding only at exact ties, which no
  statement below touches.
-/

namespace Portfolio

/-- Python `round(x, 2)`: round to 2 decimal places. -/
def round2 (q : ℚ) : ℚ := ((round (q * 100) : ℤ) : ℚ) / 100

/-- A Python value as it occurs in the records of this program: a number,
a string, Python `None`, or a non-finite float (inf/nan, producible only by
numpy arithmetic in the quote fetcher). -/
inductive PyVal where
  | num (q : ℚ)
  | str (s : String)
  | pynone
  | nonfin
  deriving DecidableEq, Repr

/-- The exceptions the modelled code can raise. -/
inductive PyErr where
  | typeError
  | zeroDivisionError
  | keyError
  | providerError
  deriving DecidableEq, Repr

/-- Result of a fallible Python computation. -/
abbrev PyM (α : Type) : Type := Except PyErr α

/-- A Python dict with string keys, as an insertion-ordered association
list (keys are unique in every record this program builds). -/
abbrev Record : Type := List (String × PyVal)

namespace Record

/-- Dict lookup, `d[k]` guarded: `some` iff the key is present (first
match; the records this program builds never carry duplicate keys). -/
def get? : Record → String → Option PyVal
  | [], _ => Option.none
  | p :: r, k => if p.1 = k then Option.some p.2 else get? r k

/-- Python `d.get(k, default)`: the stored value (even `None`) if the key
is present, else the default. -/
def getD (r : Record) (k : String) (d : PyVal) : PyVal :=
  ((r.get? k).getD d)

/-- Python `k in d`. -/
def has (r : Record) (k : String) : Bool :=
  (r.get? k).isSome

/-- Python `d[k]`: KeyError when absent. -/
def getE (r : Record) (k : String) : PyM PyVal :=
  match r.get? k with
  | Option.none => .error .keyError
  | Option.some v => .ok v

/-- Setting one key of a dict: override in place if present (the position
of a key in a Python dict is fixed by its first insertion), else append. -/
def insert : Record → String → PyVal → Record
  | [], k, v => [(k, v)]
  | p :: r, k, v => if p.1 = k then (k, v) :: r else p :: insert r k v

/-- Python `{**a, **b}`. -/
def merge (a b : Record) : Record :=
  b.foldl (fun acc p => acc.insert p.1 p.2) a

end Record

/-- A float value inside the quote fetcher: rational magnitude, a flag `np`
marking numpy float64 provenance (values read from the historical close
series), and a finiteness flag `fin`.  When `fin = false` the `val` payload
is meaningless (it stands for inf or nan). -/
structure FN where
  val : ℚ
  np : Bool
  fin : Bool
  deriving DecidableEq, Repr

namespace FN

/-- Subtraction of two fetch floats.  A non-finite operand makes the result
non-finite (inf - x, x - inf, inf - inf are all non-finite). -/
def sub (a b : FN) : FN :=
  ⟨a.val - b.val, a.np || b.np, a.fin && b.fin⟩

/-- Multiplication by a Python int literal (the `* 100` of the source). -/
def mulC (a : FN) (c : ℚ) : FN :=
  ⟨a.val * c, a.np, a.fin⟩

/-- Division.  With a zero divisor, pure-Python operands raise
ZeroDivisionError while a numpy float64 operand makes the operation a numpy
one, which returns a non-finite float64 instead of raising.  (In the source
the divisors are always finite selections from `info` or the close
series.) -/
def div (a b : FN) : PyM FN :=
  if b.val = 0 then
    if a.np || b.np then .ok ⟨0, true, false⟩
    else .error .zeroDivisionError
  else .ok ⟨a.val / b.val, a.np || b.np, a.fin && b.fin⟩

/-- Python `round(x, 2)` at the point a fetch float is emitted into the result
dict.  Python's `round` with an ndigits argument returns non-finite floats
unchanged. -/
def emit (a : FN) : PyVal :=
  if a.fin then .num (round2 a.val) else .nonfin

end FN

/-- Coerce a selected value to a fetch float.  In Python the TypeError for a
string or `None` value arises at the first arithmetic operation on it; every
selection below feeds an arithmetic operation before anything else can
happen, so coercing at the selection point is observably the same. -/
def toFN : PyVal → Bool → PyM FN
  | .num q, b => .ok ⟨q, b, true⟩
  | .nonfin, b => .ok ⟨0, b, false⟩
  | _, _ => .error .typeError

namespace PyVal

/-- Python subtraction on record values.  Defined on numbers; a non-finite
float operand propagates non-finiteness; a string or `None` operand raises
TypeError (as `float - str`, `float - NoneType` do). -/
def sub : PyVal → PyVal → PyM PyVal
  | .num a, .num b => .ok (.num (a - b))
  | .num _, .nonfin => .ok .nonfin
  | .nonfin, .num _ => .ok .nonfin
  | .nonfin, .nonfin => .ok .nonfin
  | _, _ => .error .typeError

/-- Python multiplication on record values.  `int * str` repetition is
collapsed to TypeError: in this program every product feeds a `round(_, 2)`
call, which raises TypeError on a string, so the calculator's observable
result (fall back to the original record) is identical. -/
def mul : PyVal → PyVal → PyM PyVal
  | .num a, .num b => .ok (.num (a * b))
  | .num _, .nonfin => .ok .nonfin
  | .nonfin, .num _ => .ok .nonfin
  | .nonfin, .nonfin => .ok .nonfin
  | _, _ => .error .typeError

/-- Python addition (the `+=` accumulation of the aggregators, started from
the int literal 0). -/
def add : PyVal → PyVal → PyM PyVal
  | .num a, .num b => .ok (.num (a + b))
  | .num _, .nonfin => .ok .nonfin
  | .nonfin, .num _ => .ok .nonfin
  | .nonfin, .nonfin => .ok .nonfin
  | _, _ => .error .typeError

/-- Python division on record values.  Every division in the calculators is
guarded by a `> 0` test on the divisor, so the zero-divisor and non-finite
divisor branches are unreachable there; they are filled in for totality
(a non-finite numerator over a nonzero number stays non-finite). -/
def div : PyVal → PyVal → PyM PyVal
  | .num a, .num b =>
      if b = 0 then .error .zeroDivisionError else .ok (.num (a / b))
  | .nonfin, .num b =>
      if b = 0 then .error .zeroDivisionError else .ok .nonfin
  | .num _, .nonfin => .ok .nonfin
  | .nonfin, .nonfin => .ok .nonfin
  | _, _ => .error .typeError

/-- Python `x > 0` on a record value.  A string or `None` raises TypeError
(Python 3 refuses ordered comparison with int).  A non-finite stored value
cannot come out of the JSON store, so the choice made for it is
immaterial; `+inf > 0` is true. -/
def gt0 : PyVal → PyM Bool
  | .num q => .ok (decide (0 < q))
  | .nonfin => .ok true
  | _ => .error .typeError

/-- Python `round(x, 2)` on a record value: rounds numbers, returns non-finite
floats unchanged, raises TypeError otherwise. -/
def round2E : PyVal → PyM PyVal
  | .num q => .ok (.num (round2 q))
  | .nonfin => .ok .nonfin
  | _ => .error .typeError

/-- Whether a record value is a (finite) number. -/
def isNum : PyVal → Bool
  | .num _ => true
  | _ => false

/-- The rational payload of a record value (0 for non-numbers; only ever
read under an `isNum` hypothesis). -/
def numOf : PyVal → ℚ
  | .num q => q
  | _ => 0

end PyVal

/-- The numeric content of field `k` of each record in a list, summed (the
reference value for the aggregator totals). -/
def sumField (k : String) (lst : List Record) : ℚ :=
  (lst.map (fun r => (r.getD k (.num 0)).numOf)).sum

/-- The market data a metrics calculator ends up computing with: the fetch
result, except that `if not datos_mercado:` (Python truthiness: `None` or
an empty dict) replaces it by the given default snapshot
(src/fondo_module.py lines 85-94, src/accion_module.py lines 86-96). -/
def datos_mercado (quotes : PyVal → Option Record) (valores : Record)
    (tk : PyVal) : Record :=
  match quotes tk with
  | Option.none => valores
  | Option.some d => if d.isEmpty then valores else d

/-- What the market-data provider (yfinance) delivers for one ticker: the
`info` mapping and the year-to-date `Close` series (numpy float64 values,
in date order). -/
structure ProviderResponse where
  info : Record
  closes : List ℚ
  deriving DecidableEq, Repr

/-! ### Quote Fetcher selections

Verbatim in both `FondoManager.obtener_datos_mercado` and
`AccionManager.obtener_datos_mercado` (src/fondo_module.py lines 47-54,
src/accion_module.py lines 47-54). -/

/-- Source line `precio_actual = info.get('regularMarketPrice',
info.get('currentPrice', historico['Close'].iloc[-1] if not
historico.empty else 0))`. -/
def precio_actual_val (info : Record) (closes : List ℚ) : PyVal :=
  info.getD "regularMarketPrice"
    (info.getD "currentPrice"
      (if closes.isEmpty then .num 0 else .num (closes.getLastD 0)))

/-- Whether `precio_actual` is a numpy float64: exactly when both price keys
are absent from `info` and the value falls back to the close series. -/
def precio_actual_np (info : Record) (closes : List ℚ) : Bool :=
  !(info.has "regularMarketPrice") && !(info.has "currentPrice")
    && !closes.isEmpty

/-- Source line `precio_cierre_anterior =
info.get('regularMarketPreviousClose', historico['Close'].iloc[-2] if
len(historico) > 1 else precio_actual)`. -/
def precio_cierre_anterior_val (info : Record) (closes : List ℚ) : PyVal :=
  info.getD "regularMarketPreviousClose"
    (if 1 < closes.length then .num (closes.getD (closes.length - 2) 0)
     else precio_actual_val info closes)

/-- numpy provenance of `precio_cierre_anterior`. -/
def precio_cierre_anterior_np (info : Record) (closes : List ℚ) : Bool :=
  if info.has "regularMarketPreviousClose" then false
  else if 1 < closes.length then true
  else precio_actual_np info closes

/-- Source line `precio_inicio_ano = historico['Close'].iloc[0] if not
historico.empty else precio_actual`. -/
def precio_inicio_ano_val (info : Record) (closes : List ℚ) : PyVal :=
  if closes.isEmpty then precio_actual_val info closes
  else .num (closes.headD 0)

/-- numpy provenance of `precio_inicio_ano`. -/
def precio_inicio_ano_np (info : Record) (closes : List ℚ) : Bool :=
  if closes.isEmpty then precio_actual_np info closes else true

namespace FondoManager

/-- The `try:` body of `FondoManager.obtener_datos_mercado`
(src/fondo_module.py lines 31-68).  `.ok Option.none` is the explicit
`return None` on an empty historical series; `.error` is an exception
escaping to the `except Exception` handler. -/
def fetchTry (resp : PyM ProviderResponse) (ticker : String) :
    PyM (Option Record) :=
  match resp with
  | .error e => .error e
  | .ok pr =>
    if pr.closes.isEmpty then .ok Option.none
    else
      match toFN (precio_actual_val pr.info pr.closes)
          (precio_actual_np pr.info pr.closes) with
      | .error e => .error e
      | .ok pa =>
        match toFN (precio_cierre_anterior_val pr.info pr.closes)
            (precio_cierre_anterior_np pr.info pr.closes) with
        | .error e => .error e
        | .ok pca =>
          match FN.div (FN.sub pa pca) pca with
          | .error e => .error e
          | .ok cdp =>
            match toFN (precio_inicio_ano_val pr.info pr.closes)
                (precio_inicio_ano_np pr.info pr.closes) with
            | .error e => .error e
            | .ok pia =>
              match FN.div (FN.sub pa pia) pia with
              | .error e => .error e
              | .ok cyp =>
                .ok (Option.some
                  [("nombre", pr.info.getD "longName" (.str ticker)),
                   ("ticker", .str ticker),
                   ("valor_actual", pa.emit),
                   ("cambio_diario_eur", (FN.sub pa pca).emit),
                   ("cambio_diario_pct", (cdp.mulC 100).emit),
                   ("cambio_ytd_pct", (cyp.mulC 100).emit)])

/-- Full `FondoManager.obtener_datos_mercado`: the try body with the blanket
`except Exception` handler converting any exception to `None`
(src/fondo_module.py lines 20-72). -/
def obtener_datos_mercado (resp : PyM ProviderResponse) (ticker : String) :
    Option Record :=
  match fetchTry resp ticker with
  | .ok r => r
  | .error _ => Option.none

end FondoManager

namespace AccionManager

/-- The `try:` body of `AccionManager.obtener_datos_mercado`
(src/accion_module.py lines 31-69): identical to the fund fetcher except
for the extra `sector` field in the result dict. -/
def fetchTry (resp : PyM ProviderResponse) (ticker : String) :
    PyM (Option Record) :=
  match resp with
  | .error e => .error e
  | .ok pr =>
    if pr.closes.isEmpty then .ok Option.none
    else
      match toFN (precio_actual_val pr.info pr.closes)
          (precio_actual_np pr.info pr.closes) with
      | .error e => .error e
      | .ok pa =>
        match toFN (precio_cierre_anterior_val pr.info pr.closes)
            (precio_cierre_anterior_np pr.info pr.closes) with
        | .error e => .error e
        | .ok pca =>
          match FN.div (FN.sub pa pca) pca with
          | .error e => .error e
          | .ok cdp =>
            match toFN (precio_inicio_ano_val pr.info pr.closes)
                (precio_inicio_ano_np pr.info pr.closes) with
            | .error e => .error e
            | .ok pia =>
              match FN.div (FN.sub pa pia) pia with
              | .error e => .error e
              | .ok cyp =>
                .ok (Option.some
                  [("nombre", pr.info.getD "longName" (.str ticker)),
                   ("ticker", .str ticker),
                   ("sector", pr.info.getD "sector" (.str "No disponible")),
                   ("valor_actual", pa.emit),
                   ("cambio_diario_eur", (FN.sub pa pca).emit),
                   ("cambio_diario_pct", (cdp.mulC 100).emit),
                   ("cambio_ytd_pct", (cyp.mulC 100).emit)])

/-- Full `AccionManager.obtener_datos_mercado` (src/accion_module.py lines
20-73). -/
def obtener_datos_mercado (resp : PyM ProviderResponse) (ticker : String) :
    Option Record :=
  match fetchTry resp ticker with
  | .ok r => r
  | .error _ => Option.none

end AccionManager

namespace FondoManager

/-- The default market data used when `obtener_datos_mercado` returned no
data (src/fondo_module.py lines 88-94). -/
def valores_por_defecto (fondo_data : Record) : Record :=
  [("valor_actual", fondo_data.getD "valor_actual" (.num 0)),
   ("cambio_diario_eur", .num 0),
   ("cambio_diario_pct", .num 0),
   ("cambio_ytd_pct", .num 0)]

/-- The `try:` body of `FondoManager.calcular_metricas_fondo`
(src/fondo_module.py lines 84-114).  `quotes` stands for
`self.obtener_datos_mercado` (the cached fetch); the `if not datos_mercado`
truthiness test also replaces an empty dict by the defaults. -/
def metricasTry (quotes : PyVal → Option Record) (fondo_data : Record) :
    PyM Record :=
  match fondo_data.getE "ticker" with
  | .error e => .error e
  | .ok tk =>
    let dm : Record :=
      datos_mercado quotes (valores_por_defecto fondo_data) tk
    let valor_compra := fondo_data.getD "valor_compra" (.num 0)
    let cantidad := fondo_data.getD "cantidad" (.num 0)
    match dm.getE "valor_actual" with
    | .error e => .error e
    | .ok valor_actual =>
      match PyVal.sub valor_actual valor_compra with
      | .error e => .error e
      | .ok dif =>
        match PyVal.mul dif cantidad with
        | .error e => .error e
        | .ok ganancia_total_eur =>
          match PyVal.gt0 valor_compra with
          | .error e => .error e
          | .ok pos =>
            match (if pos then
                     match PyVal.sub valor_actual valor_compra with
                     | .error e => .error e
                     | .ok dif2 =>
                       match PyVal.div dif2 valor_compra with
                       | .error e => .error e
                       | .ok quot => PyVal.mul quot (.num 100)
                   else .ok (.num 0) : PyM PyVal) with
            | .error e => .error e
            | .ok ganancia_total_pct =>
              match PyVal.mul valor_compra cantidad with
              | .error e => .error e
              | .ok total_invertido =>
                match PyVal.mul valor_actual cantidad with
                | .error e => .error e
                | .ok valor_actual_total =>
                  match PyVal.round2E ganancia_total_eur with
                  | .error e => .error e
                  | .ok r1 =>
                    match PyVal.round2E ganancia_total_pct with
                    | .error e => .error e
                    | .ok r2 =>
                      match PyVal.round2E total_invertido with
                      | .error e => .error e
                      | .ok r3 =>
                        match PyVal.round2E valor_actual_total with
                        | .error e => .error e
                        | .ok r4 =>
                          .ok (Record.merge (Record.merge fondo_data dm)
                            [("ganancia_total_eur", r1),
                             ("ganancia_total_pct", r2),
                             ("total_invertido", r3),
                             ("valor_actual_total", r4)])

/-- Full `FondoManager.calcular_metricas_fondo`: the try body with the
`except Exception` handler returning the original stored record
(src/fondo_module.py lines 74-118). -/
def calcular_metricas_fondo (quotes : PyVal → Option Record)
    (fondo_data : Record) : Record :=
  match metricasTry quotes fondo_data with
  | .ok r => r
  | .error _ => fondo_data

/-- The accumulation loop of `FondoManager.obtener_todos_fondos_con_metricas`
(src/fondo_module.py lines 134-141): per stored fund, compute metrics,
append in order, and `+=` the three totals (an uncaught TypeError here
propagates to the caller).  Returns (computed list, total_invertido,
valor_actual_total, ganancia_total_eur). -/
def aggLoop (quotes : PyVal → Option Record) :
    List Record → PyVal → PyVal → PyVal →
    PyM (List Record × PyVal × PyVal × PyVal)
  | [], ti, vat, gte => .ok ([], ti, vat, gte)
  | fondo :: rest, ti, vat, gte =>
    let fc := calcular_metricas_fondo quotes fondo
    match PyVal.add ti (fc.getD "total_invertido" (.num 0)) with
    | .error e => .error e
    | .ok ti' =>
      match PyVal.add vat (fc.getD "valor_actual_total" (.num 0)) with
      | .error e => .error e
      | .ok vat' =>
        match PyVal.add gte (fc.getD "ganancia_total_eur" (.num 0)) with
        | .error e => .error e
        | .ok gte' =>
          match aggLoop quotes rest ti' vat' gte' with
          | .error e => .error e
          | .ok (lst, a, b, c) => .ok (fc :: lst, a, b, c)

/-- Full `FondoManager.obtener_todos_fondos_con_metricas`
(src/fondo_module.py lines 120-153), with the stored funds
(`self.db.obtener_fondos()`) passed in as `fondos_db`. -/
def obtener_todos_fondos_con_metricas (quotes : PyVal → Option Record)
    (fondos_db : List Record) : PyM (List Record × Record) :=
  match aggLoop quotes fondos_db (.num 0) (.num 0) (.num 0) with
  | .error e => .error e
  | .ok (fondos_calculados, ti, vat, gte) =>
    match PyVal.gt0 ti with
    | .error e => .error e
    | .ok pos =>
      match (if pos then
               match PyVal.div gte ti with
               | .error e => .error e
               | .ok quot => PyVal.mul quot (.num 100)
             else .ok (.num 0) : PyM PyVal) with
      | .error e => .error e
      | .ok gtp =>
        match PyVal.round2E ti with
        | .error e => .error e
        | .ok r1 =>
          match PyVal.round2E vat with
          | .error e => .error e
          | .ok r2 =>
            match PyVal.round2E gte with
            | .error e => .error e
            | .ok r3 =>
              match PyVal.round2E gtp with
              | .error e => .error e
              | .ok r4 =>
                .ok (fondos_calculados,
                  [("total_invertido", r1),
                   ("valor_actual_total", r2),
                   ("ganancia_total_eur", r3),
                   ("ganancia_total_pct", r4)])

end FondoManager

namespace AccionManager

/-- The default market data used when `obtener_datos_mercado` returned no
data (src/accion_module.py lines 89-96). -/
def valores_por_defecto (accion_data : Record) : Record :=
  [("valor_actual", accion_data.getD "valor_actual" (.num 0)),
   ("cambio_diario_eur", .num 0),
   ("cambio_diario_pct", .num 0),
   ("cambio_ytd_pct", .num 0),
   ("sector", .str "No disponible")]

/-- The `try:` body of `AccionManager.calcular_metricas_accion`
(src/accion_module.py lines 85-116). -/
def metricasTry (quotes : PyVal → Option Record) (accion_data : Record) :
    PyM Record :=
  match accion_data.getE "ticker" with
  | .error e => .error e
  | .ok tk =>
    let dm : Record :=
      datos_mercado quotes (valores_por_defecto accion_data) tk
    let precio_compra := accion_data.getD "precio_compra" (.num 0)
    let num_acciones := accion_data.getD "num_acciones" (.num 0)
    match dm.getE "valor_actual" with
    | .error e => .error e
    | .ok valor_actual =>
      match PyVal.sub valor_actual precio_compra with
      | .error e => .error e
      | .ok dif =>
        match PyVal.mul dif num_acciones with
        | .error e => .error e
        | .ok ganancia_total_eur =>
          match PyVal.gt0 precio_compra with
          | .error e => .error e
          | .ok pos =>
            match (if pos then
                     match PyVal.sub valor_actual precio_compra with
                     | .error e => .error e
                     | .ok dif2 =>
                       match PyVal.div dif2 precio_compra with
                       | .error e => .error e
                       | .ok quot => PyVal.mul quot (.num 100)
                   else .ok (.num 0) : PyM PyVal) with
            | .error e => .error e
            | .ok ganancia_total_pct =>
              match PyVal.mul precio_compra num_acciones with
              | .error e => .error e
              | .ok total_invertido =>
                match PyVal.mul valor_actual num_acciones with
                | .error e => .error e
                | .ok valor_actual_total =>
                  match PyVal.round2E ganancia_total_eur with
                  | .error e => .error e
                  | .ok r1 =>
                    match PyVal.round2E ganancia_total_pct with
                    | .error e => .error e
                    | .ok r2 =>
                      match PyVal.round2E total_invertido with
                      | .error e => .error e
                      | .ok r3 =>
                        match PyVal.round2E valor_actual_total with
                        | .error e => .error e
                        | .ok r4 =>
                          .ok (Record.merge (Record.merge accion_data dm)
                            [("ganancia_total_eur", r1),
                             ("ganancia_total_pct", r2),
                             ("total_invertido", r3),
                             ("valor_actual_total", r4)])

/-- Full `AccionManager.calcular_metricas_accion`: the try body with the
`except Exception` handler returning the original stored record
(src/accion_module.py lines 75-120). -/
def calcular_metricas_accion (quotes : PyVal → Option Record)
    (accion_data : Record) : Record :=
  match metricasTry quotes accion_data with
  | .ok r => r
  | .error _ => accion_data

/-- The accumulation loop of
`AccionManager.obtener_todas_acciones_con_metricas`
(src/accion_module.py lines 136-143). -/
def aggLoop (quotes : PyVal → Option Record) :
    List Record → PyVal → PyVal → PyVal →
    PyM (List Record × PyVal × PyVal × PyVal)
  | [], ti, vat, gte => .ok ([], ti, vat, gte)
  | accion :: rest, ti, vat, gte =>
    let ac := calcular_metricas_accion quotes accion
    match PyVal.add ti (ac.getD "total_invertido" (.num 0)) with
    | .error e => .error e
    | .ok ti' =>
      match PyVal.add vat (ac.getD "valor_actual_total" (.num 0)) with
      | .error e => .error e
      | .ok vat' =>
        match PyVal.add gte (ac.getD "ganancia_total_eur" (.num 0)) with
        | .error e => .error e
        | .ok gte' =>
          match aggLoop quotes rest ti' vat' gte' with
          | .error e => .error e
          | .ok (lst, a, b, c) => .ok (ac :: lst, a, b, c)

/-- Full `AccionManager.obtener_todas_acciones_con_metricas`
(src/accion_module.py lines 122-155), with the stored equities
(`self.db.obtener_acciones()`) passed in as `acciones_db`. -/
def obtener_todas_acciones_con_metricas (quotes : PyVal → Option Record)
    (acciones_db : List Record) : PyM (List Record × Record) :=
  match aggLoop quotes acciones_db (.num 0) (.num 0) (.num 0) with
  | .error e => .error e
  | .ok (acciones_calculadas, ti, vat, gte) =>
    match PyVal.gt0 ti with
    | .error e => .error e
    | .ok pos =>
      match (if pos then
               match PyVal.div gte ti with
               | .error e => .error e
               | .ok quot => PyVal.mul quot (.num 100)
             else .ok (.num 0) : PyM PyVal) with
      | .error e => .error e
      | .ok gtp =>
        match PyVal.round2E ti with
        | .error e => .error e
        | .ok r1 =>
          match PyVal.round2E vat with
          | .error e => .error e
          | .ok r2 =>
            match PyVal.round2E gte with
            | .error e => .error e
            | .ok r3 =>
              match PyVal.round2E gtp with
              | .error e => .error e
              | .ok r4 =>
                .ok (acciones_calculadas,
                  [("total_invertido", r1),
                   ("valor_actual_total", r2),
                   ("ganancia_total_eur", r3),
                   ("ganancia_total_pct", r4)])

end AccionManager

/-! ## Record lemmas -/

theorem Record.get?_insert (r : Record) (k : String) (v : PyVal)
    (k' : String) :
    (r.insert k v).get? k' = if k' = k then Option.some v else r.get? k' := by
  induction r with
  | nil =>
    simp only [Record.insert, Record.get?]
    by_cases h : k = k'
    · subst h; simp
    · rw [if_neg h, if_neg (fun hh => h hh.symm)]
  | cons p r ih =>
    simp only [Record.insert]
    by_cases hp : p.1 = k
    · rw [if_pos hp]
      simp only [Record.get?]
      by_cases h : k = k'
      · subst h
        rw [if_pos rfl, if_pos rfl]
      · rw [if_neg h, if_neg (fun hh => h hh.symm), if_neg (hp ▸ h)]
    · rw [if_neg hp]
      simp only [Record.get?]
      by_cases hpk : p.1 = k'
      · rw [if_pos hpk, if_pos hpk,
          if_neg (show k' ≠ k from fun hh => hp (hpk.trans hh))]
      · rw [if_neg hpk, if_neg hpk, ih]

theorem Record.merge_nil (a : Record) : Record.merge a [] = a := rfl

theorem Record.merge_cons (a : Record) (k : String) (v : PyVal)
    (b : Record) :
    Record.merge a ((k, v) :: b) = Record.merge (a.insert k v) b := rfl

theorem Record.get?_merge_four (X : Record) (k1 k2 k3 k4 k : String)
    (v1 v2 v3 v4 : PyVal) :
    (Record.merge X [(k1, v1), (k2, v2), (k3, v3), (k4, v4)]).get? k =
      if k = k4 then Option.some v4
      else if k = k3 then Option.some v3
      else if k = k2 then Option.some v2
      else if k = k1 then Option.some v1
      else X.get? k := by
  simp only [Record.merge, List.foldl, Record.get?_insert]

theorem Record.get?_merge_five (X : Record) (k1 k2 k3 k4 k5 k : String)
    (v1 v2 v3 v4 v5 : PyVal) :
    (Record.merge X [(k1, v1), (k2, v2), (k3, v3), (k4, v4), (k5, v5)]).get?
        k =
      if k = k5 then Option.some v5
      else if k = k4 then Option.some v4
      else if k = k3 then Option.some v3
      else if k = k2 then Option.some v2
      else if k = k1 then Option.some v1
      else X.get? k := by
  simp only [Record.merge, List.foldl, Record.get?_insert]

/-! ## Success path of the metrics calculators -/

/-- The `try:` body of `calcular_metricas_fondo` on the success path: with
the stored purchase data numeric and the market data (after the
unavailability fallback) carrying a numeric current price, it returns the
stored record merged with the market data and the four derived, rounded
metrics. -/
theorem FondoManager.metricasTry_eq_fondo (quotes : PyVal → Option Record)
    (fd : Record) (tk : PyVal) (p q c : ℚ)
    (h1 : fd.get? "ticker" = Option.some tk)
    (h2 : (datos_mercado quotes (FondoManager.valores_por_defecto fd)
            tk).get? "valor_actual" = Option.some (.num c))
    (h3 : fd.getD "valor_compra" (.num 0) = .num p)
    (h4 : fd.getD "cantidad" (.num 0) = .num q) :
    FondoManager.metricasTry quotes fd = .ok (Record.merge
      (Record.merge fd
        (datos_mercado quotes (FondoManager.valores_por_defecto fd) tk))
      [("ganancia_total_eur", .num (round2 ((c - p) * q))),
       ("ganancia_total_pct",
         .num (round2 (if 0 < p then (c - p) / p * 100 else 0))),
       ("total_invertido", .num (round2 (p * q))),
       ("valor_actual_total", .num (round2 (c * q)))]) := by
  unfold FondoManager.metricasTry
  simp only [Record.getE, h1, h2, h3, h4, PyVal.sub, PyVal.mul, PyVal.gt0,
    PyVal.div, PyVal.round2E]
  by_cases hp : 0 < p
  · simp only [hp, decide_True, if_true, if_neg hp.ne', PyVal.mul,
      PyVal.round2E]
  · simp only [hp, decide_False, if_false, PyVal.round2E]
    rfl

/-- The `try:` body of `calcular_metricas_accion` on the success path. -/
theorem AccionManager.metricasTry_eq_accion (quotes : PyVal → Option Record)
    (ad : Record) (tk : PyVal) (p q c : ℚ)
    (h1 : ad.get? "ticker" = Option.some tk)
    (h2 : (datos_mercado quotes (AccionManager.valores_por_defecto ad)
            tk).get? "valor_actual" = Option.some (.num c))
    (h3 : ad.getD "precio_compra" (.num 0) = .num p)
    (h4 : ad.getD "num_acciones" (.num 0) = .num q) :
    AccionManager.metricasTry quotes ad = .ok (Record.merge
      (Record.merge ad
        (datos_mercado quotes (AccionManager.valores_por_defecto ad) tk))
      [("ganancia_total_eur", .num (round2 ((c - p) * q))),
       ("ganancia_total_pct",
         .num (round2 (if 0 < p then (c - p) / p * 100 else 0))),
       ("total_invertido", .num (round2 (p * q))),
       ("valor_actual_total", .num (round2 (c * q)))]) := by
  unfold AccionManager.metricasTry
  simp only [Record.getE, h1, h2, h3, h4, PyVal.sub, PyVal.mul, PyVal.gt0,
    PyVal.div, PyVal.round2E]
  by_cases hp : 0 < p
  · simp only [hp, decide_True, if_true, if_neg hp.ne', PyVal.mul,
      PyVal.round2E]
  · simp only [hp, decide_False, if_false, PyVal.round2E]
    rfl

/-- When the fetch produced a non-empty dict, that dict is the market data
the calculator computes with. -/
theorem datos_mercado_of_some (quotes : PyVal → Option Record)
    (valores dm : Record) (tk : PyVal) (hq : quotes tk = Option.some dm)
    (hne : dm ≠ []) :
    datos_mercado quotes valores tk = dm := by
  unfold datos_mercado
  rw [hq]
  cases dm with
  | nil => exact absurd rfl hne
  | cons a l => rfl

/-- When the fetch returned `None`, the calculator computes with the
default snapshot. -/
theorem datos_mercado_of_none (quotes : PyVal → Option Record)
    (valores : Record) (tk : PyVal) (hq : quotes tk = Option.none) :
    datos_mercado quotes valores tk = valores := by
  unfold datos_mercado
  rw [hq]

/-! ## Claim theorems -/

/-- C3: for every position with purchase price `p`, quantity `q` and
resolved current price `c`, the metrics calculators return
`abs_gain = (c - p) * q`, `pct_gain = (c - p) / p * 100` when `p > 0`,
`invested = p * q` and `current_total = c * q`, each rounded to 2 decimal
places (fund and equity calculators alike). -/
theorem claim_C3_per_position_metrics :
    (∀ (quotes : PyVal → Option Record) (fd dm : Record) (tk : PyVal)
        (p q c : ℚ),
      fd.get? "ticker" = Option.some tk →
      quotes tk = Option.some dm →
      dm ≠ [] →
      dm.get? "valor_actual" = Option.some (.num c) →
      fd.getD "valor_compra" (.num 0) = .num p →
      fd.getD "cantidad" (.num 0) = .num q →
      0 < p →
      ((FondoManager.calcular_metricas_fondo quotes fd).get?
          "ganancia_total_eur" = Option.some (.num (round2 ((c - p) * q))) ∧
       (FondoManager.calcular_metricas_fondo quotes fd).get?
          "ganancia_total_pct"
          = Option.some (.num (round2 ((c - p) / p * 100))) ∧
       (FondoManager.calcular_metricas_fondo quotes fd).get?
          "total_invertido" = Option.some (.num (round2 (p * q))) ∧
       (FondoManager.calcular_metricas_fondo quotes fd).get?
          "valor_actual_total" = Option.some (.num (round2 (c * q))))) ∧
    (∀ (quotes : PyVal → Option Record) (ad dm : Record) (tk : PyVal)
        (p q c : ℚ),
      ad.get? "ticker" = Option.some tk →
      quotes tk = Option.some dm →
      dm ≠ [] →
      dm.get? "valor_actual" = Option.some (.num c) →
      ad.getD "precio_compra" (.num 0) = .num p →
      ad.getD "num_acciones" (.num 0) = .num q →
      0 < p →
      ((AccionManager.calcular_metricas_accion quotes ad).get?
          "ganancia_total_eur" = Option.some (.num (round2 ((c - p) * q))) ∧
       (AccionManager.calcular_metricas_accion quotes ad).get?
          "ganancia_total_pct"
          = Option.some (.num (round2 ((c - p) / p * 100))) ∧
       (AccionManager.calcular_metricas_accion quotes ad).get?
          "total_invertido" = Option.some (.num (round2 (p * q))) ∧
       (AccionManager.calcular_metricas_accion quotes ad).get?
          "valor_actual_total" = Option.some (.num (round2 (c * q))))) := by
  constructor
  · intro quotes fd dm tk p q c h1 hq hne h2 h3 h4 hp
    have hdm := datos_mercado_of_some quotes
      (FondoManager.valores_por_defecto fd) dm tk hq hne
    have h2' : (datos_mercado quotes (FondoManager.valores_por_defecto fd)
        tk).get? "valor_actual" = Option.some (.num c) := by
      rw [hdm]; exact h2
    have hm := FondoManager.metricasTry_eq_fondo quotes fd tk p q c h1 h2' h3 h4
    rw [if_pos hp] at hm
    unfold FondoManager.calcular_metricas_fondo
    rw [hm]
    refine ⟨?_, ?_, ?_, ?_⟩ <;> rw [Record.get?_merge_four] <;> rfl
  · intro quotes ad dm tk p q c h1 hq hne h2 h3 h4 hp
    have hdm := datos_mercado_of_some quotes
      (AccionManager.valores_por_defecto ad) dm tk hq hne
    have h2' : (datos_mercado quotes (AccionManager.valores_por_defecto ad)
        tk).get? "valor_actual" = Option.some (.num c) := by
      rw [hdm]; exact h2
    have hm := AccionManager.metricasTry_eq_accion quotes ad tk p q c h1 h2' h3 h4
    rw [if_pos hp] at hm
    unfold AccionManager.calcular_metricas_accion
    rw [hm]
    refine ⟨?_, ?_, ?_, ?_⟩ <;> rw [Record.get?_merge_four] <;> rfl

/-- C3 witness: the claim's own example, `p = 100`, `q = 10`, `c = 110`:
`abs_gain = 100.00`, `pct_gain = 10.00`, `invested = 1000.00`,
`current_total = 1100.00` (fund calculator). -/
theorem claim_C3_per_position_metrics_witness :
    (FondoManager.calcular_metricas_fondo
        (fun t => if t = .str "ABC"
          then Option.some [("valor_actual", PyVal.num 110)]
          else Option.none)
        [("ticker", .str "ABC"), ("valor_compra", .num 100),
         ("cantidad", .num 10)]).get? "ganancia_total_eur"
      = Option.some (.num 100) ∧
    (FondoManager.calcular_metricas_fondo
        (fun t => if t = .str "ABC"
          then Option.some [("valor_actual", PyVal.num 110)]
          else Option.none)
        [("ticker", .str "ABC"), ("valor_compra", .num 100),
         ("cantidad", .num 10)]).get? "ganancia_total_pct"
      = Option.some (.num 10) ∧
    (FondoManager.calcular_metricas_fondo
        (fun t => if t = .str "ABC"
          then Option.some [("valor_actual", PyVal.num 110)]
          else Option.none)
        [("ticker", .str "ABC"), ("valor_compra", .num 100),
         ("cantidad", .num 10)]).get? "total_invertido"
      = Option.some (.num 1000) ∧
    (FondoManager.calcular_metricas_fondo
        (fun t => if t = .str "ABC"
          then Option.some [("valor_actual", PyVal.num 110)]
          else Option.none)
        [("ticker", .str "ABC"), ("valor_compra", .num 100),
         ("cantidad", .num 10)]).get? "valor_actual_total"
      = Option.some (.num 1100) := by
  have h := claim_C3_per_position_metrics.1
    (fun t => if t = .str "ABC"
      then Option.some [("valor_actual", PyVal.num 110)]
      else Option.none)
    [("ticker", .str "ABC"), ("valor_compra", .num 100),
     ("cantidad", .num 10)]
    [("valor_actual", PyVal.num 110)] (.str "ABC") 100 10 110
    rfl (by decide) (by decide) rfl rfl rfl (by norm_num)
  refine ⟨h.1.trans ?_, h.2.1.trans ?_, h.2.2.1.trans ?_,
    h.2.2.2.trans ?_⟩ <;> norm_num [round2, round_eq]

/-- C2: for every position whose stored purchase price equals 0, the
metrics calculators return `ganancia_total_pct = 0` without dividing by the
purchase price (the `> 0` guard takes the `else 0` branch), for the fund
and the equity calculator alike. -/
theorem claim_C2_zero_purchase_price :
    (∀ (quotes : PyVal → Option Record) (fd : Record) (tk : PyVal)
        (q c : ℚ),
      fd.get? "ticker" = Option.some tk →
      (datos_mercado quotes (FondoManager.valores_por_defecto fd) tk).get?
          "valor_actual" = Option.some (.num c) →
      fd.getD "valor_compra" (.num 0) = .num 0 →
      fd.getD "cantidad" (.num 0) = .num q →
      (FondoManager.calcular_metricas_fondo quotes fd).get?
          "ganancia_total_pct" = Option.some (.num 0)) ∧
    (∀ (quotes : PyVal → Option Record) (ad : Record) (tk : PyVal)
        (q c : ℚ),
      ad.get? "ticker" = Option.some tk →
      (datos_mercado quotes (AccionManager.valores_por_defecto ad) tk).get?
          "valor_actual" = Option.some (.num c) →
      ad.getD "precio_compra" (.num 0) = .num 0 →
      ad.getD "num_acciones" (.num 0) = .num q →
      (AccionManager.calcular_metricas_accion quotes ad).get?
          "ganancia_total_pct" = Option.some (.num 0)) := by
  have hr : round2 (0:ℚ) = 0 := by norm_num [round2, round_eq]
  constructor
  · intro quotes fd tk q c h1 h2 h3 h4
    have hm := FondoManager.metricasTry_eq_fondo quotes fd tk 0 q c h1 h2 h3 h4
    rw [if_neg (lt_irrefl (0:ℚ)), hr] at hm
    unfold FondoManager.calcular_metricas_fondo
    rw [hm, Record.get?_merge_four]
    rfl
  · intro quotes ad tk q c h1 h2 h3 h4
    have hm := AccionManager.metricasTry_eq_accion quotes ad tk 0 q c h1 h2 h3 h4
    rw [if_neg (lt_irrefl (0:ℚ)), hr] at hm
    unfold AccionManager.calcular_metricas_accion
    rw [hm, Record.get?_merge_four]
    rfl

/-- C2 witness: a fund and an equity position bought at price 0, quantity
3, current price 7: the reported percentage gain is 0 in both cases. -/
theorem claim_C2_zero_purchase_price_witness :
    (FondoManager.calcular_metricas_fondo
        (fun t => if t = .str "Z"
          then Option.some [("valor_actual", PyVal.num 7)] else Option.none)
        [("ticker", .str "Z"), ("valor_compra", .num 0),
         ("cantidad", .num 3)]).get? "ganancia_total_pct"
      = Option.some (.num 0) ∧
    (AccionManager.calcular_metricas_accion
        (fun t => if t = .str "Z"
          then Option.some [("valor_actual", PyVal.num 7)] else Option.none)
        [("ticker", .str "Z"), ("precio_compra", .num 0),
         ("num_acciones", .num 3)]).get? "ganancia_total_pct"
      = Option.some (.num 0) :=
  ⟨claim_C2_zero_purchase_price.1 _ _ (.str "Z") 3 7 rfl (by decide) rfl rfl,
   claim_C2_zero_purchase_price.2 _ _ (.str "Z") 3 7 rfl (by decide) rfl rfl⟩

/-- C5: when the quote fetch result is `None`, the metrics calculators
compute with the synthetic snapshot: the enriched record's current value is
the position's stored `valor_actual` (or 0 when absent, covered by the
`getD` default), and its daily absolute change, daily percentage change and
year-to-date percentage change are all 0 — for the fund and the equity
calculator alike. -/
theorem claim_C5_unavailable_fallback :
    (∀ (quotes : PyVal → Option Record) (fd : Record) (tk : PyVal)
        (p q c : ℚ),
      fd.get? "ticker" = Option.some tk →
      quotes tk = Option.none →
      fd.getD "valor_actual" (.num 0) = .num c →
      fd.getD "valor_compra" (.num 0) = .num p →
      fd.getD "cantidad" (.num 0) = .num q →
      ((FondoManager.calcular_metricas_fondo quotes fd).get? "valor_actual"
          = Option.some (.num c) ∧
       (FondoManager.calcular_metricas_fondo quotes fd).get?
          "cambio_diario_eur" = Option.some (.num 0) ∧
       (FondoManager.calcular_metricas_fondo quotes fd).get?
          "cambio_diario_pct" = Option.some (.num 0) ∧
       (FondoManager.calcular_metricas_fondo quotes fd).get?
          "cambio_ytd_pct" = Option.some (.num 0))) ∧
    (∀ (quotes : PyVal → Option Record) (ad : Record) (tk : PyVal)
        (p q c : ℚ),
      ad.get? "ticker" = Option.some tk →
      quotes tk = Option.none →
      ad.getD "valor_actual" (.num 0) = .num c →
      ad.getD "precio_compra" (.num 0) = .num p →
      ad.getD "num_acciones" (.num 0) = .num q →
      ((AccionManager.calcular_metricas_accion quotes ad).get?
          "valor_actual" = Option.some (.num c) ∧
       (AccionManager.calcular_metricas_accion quotes ad).get?
          "cambio_diario_eur" = Option.some (.num 0) ∧
       (AccionManager.calcular_metricas_accion quotes ad).get?
          "cambio_diario_pct" = Option.some (.num 0) ∧
       (AccionManager.calcular_metricas_accion quotes ad).get?
          "cambio_ytd_pct" = Option.some (.num 0))) := by
  constructor
  · intro quotes fd tk p q c h1 hq hva h3 h4
    have hdm := datos_mercado_of_none quotes
      (FondoManager.valores_por_defecto fd) tk hq
    have h2' : (datos_mercado quotes (FondoManager.valores_por_defecto fd)
        tk).get? "valor_actual" = Option.some (.num c) := by
      rw [hdm]
      unfold FondoManager.valores_por_defecto
      simp [Record.get?, hva]
    have hm := FondoManager.metricasTry_eq_fondo quotes fd tk p q c h1 h2' h3 h4
    unfold FondoManager.calcular_metricas_fondo
    rw [hm]
    refine ⟨?_, ?_, ?_, ?_⟩ <;>
      rw [Record.get?_merge_four, hdm] <;>
      unfold FondoManager.valores_por_defecto <;>
      rw [Record.get?_merge_four] <;>
      simp [hva]
  · intro quotes ad tk p q c h1 hq hva h3 h4
    have hdm := datos_mercado_of_none quotes
      (AccionManager.valores_por_defecto ad) tk hq
    have h2' : (datos_mercado quotes (AccionManager.valores_por_defecto ad)
        tk).get? "valor_actual" = Option.some (.num c) := by
      rw [hdm]
      unfold AccionManager.valores_por_defecto
      simp [Record.get?, hva]
    have hm := AccionManager.metricasTry_eq_accion quotes ad tk p q c h1 h2' h3 h4
    unfold AccionManager.calcular_metricas_accion
    rw [hm]
    refine ⟨?_, ?_, ?_, ?_⟩ <;>
      rw [Record.get?_merge_four, hdm] <;>
      unfold AccionManager.valores_por_defecto <;>
      rw [Record.get?_merge_five] <;>
      simp [hva]

/-- C5 witness: the spec's degradation scenario — ticker "ZZZZ" whose
year-to-date series is empty, so the fetch itself returns `None`; the
enriched position keeps the stored current value 45 and reports all change
fields as 0 (fund calculator; the quote function is the real fetcher run
on an empty series). -/
theorem claim_C5_unavailable_fallback_witness :
    (FondoManager.calcular_metricas_fondo
        (fun t => FondoManager.obtener_datos_mercado
          (.ok ⟨[], []⟩) (if t = .str "ZZZZ" then "ZZZZ" else "X"))
        [("ticker", .str "ZZZZ"), ("valor_actual", .num 45),
         ("valor_compra", .num 50), ("cantidad", .num 10)]).get?
        "valor_actual" = Option.some (.num 45) ∧
    (FondoManager.calcular_metricas_fondo
        (fun t => FondoManager.obtener_datos_mercado
          (.ok ⟨[], []⟩) (if t = .str "ZZZZ" then "ZZZZ" else "X"))
        [("ticker", .str "ZZZZ"), ("valor_actual", .num 45),
         ("valor_compra", .num 50), ("cantidad", .num 10)]).get?
        "cambio_diario_pct" = Option.some (.num 0) ∧
    (FondoManager.calcular_metricas_fondo
        (fun t => FondoManager.obtener_datos_mercado
          (.ok ⟨[], []⟩) (if t = .str "ZZZZ" then "ZZZZ" else "X"))
        [("ticker", .str "ZZZZ"), ("valor_actual", .num 45),
         ("valor_compra", .num 50), ("cantidad", .num 10)]).get?
        "cambio_ytd_pct" = Option.some (.num 0) := by
  have h := claim_C5_unavailable_fallback.1
    (fun t => FondoManager.obtener_datos_mercado
      (.ok ⟨[], []⟩) (if t = .str "ZZZZ" then "ZZZZ" else "X"))
    [("ticker", .str "ZZZZ"), ("valor_actual", .num 45),
     ("valor_compra", .num 50), ("cantidad", .num 10)]
    (.str "ZZZZ") 50 10 45 rfl rfl rfl rfl rfl
  exact ⟨h.1, h.2.2.1, h.2.2.2⟩

/-- C7: whenever the metric derivation for a stored record raises (any
exception in the `try:` body), the calculator catches it and returns the
original stored record unchanged — same keys and values, no derived fields
added — rather than raising or returning a partial result. -/
theorem claim_C7_exception_returns_original :
    (∀ (quotes : PyVal → Option Record) (fd : Record),
      (∃ e, FondoManager.metricasTry quotes fd = .error e) →
      FondoManager.calcular_metricas_fondo quotes fd = fd) ∧
    (∀ (quotes : PyVal → Option Record) (ad : Record),
      (∃ e, AccionManager.metricasTry quotes ad = .error e) →
      AccionManager.calcular_metricas_accion quotes ad = ad) := by
  constructor
  · intro quotes fd h
    obtain ⟨e, he⟩ := h
    unfold FondoManager.calcular_metricas_fondo
    rw [he]
  · intro quotes ad h
    obtain ⟨e, he⟩ := h
    unfold AccionManager.calcular_metricas_accion
    rw [he]

/-- C7 witness: a malformed stored record with no `ticker` key makes the
body raise KeyError, and both calculators return that record unchanged. -/
theorem claim_C7_exception_returns_original_witness :
    (∃ e, FondoManager.metricasTry (fun _ => Option.none)
        [("nombre", .str "x")] = .error e) ∧
    FondoManager.calcular_metricas_fondo (fun _ => Option.none)
        [("nombre", .str "x")] = [("nombre", .str "x")] ∧
    (∃ e, AccionManager.metricasTry (fun _ => Option.none)
        [("nombre", .str "y")] = .error e) ∧
    AccionManager.calcular_metricas_accion (fun _ => Option.none)
        [("nombre", .str "y")] = [("nombre", .str "y")] :=
  ⟨⟨.keyError, rfl⟩,
   claim_C7_exception_returns_original.1 _ _ ⟨.keyError, rfl⟩,
   ⟨.keyError, rfl⟩,
   claim_C7_exception_returns_original.2 _ _ ⟨.keyError, rfl⟩⟩

/-- C9: the portfolio aggregation is deterministic — with the same stored
positions and the same (cached) quote results, two runs produce identical
enriched-position lists and identical summary totals, for funds and for
equities. -/
theorem claim_C9_deterministic (q1 q2 : PyVal → Option Record)
    (db1 db2 : List Record) (hq : ∀ t, q1 t = q2 t) (hdb : db1 = db2) :
    FondoManager.obtener_todos_fondos_con_metricas q1 db1
      = FondoManager.obtener_todos_fondos_con_metricas q2 db2 ∧
    AccionManager.obtener_todas_acciones_con_metricas q1 db1
      = AccionManager.obtener_todas_acciones_con_metricas q2 db2 := by
  have h : q1 = q2 := funext hq
  subst h
  subst hdb
  exact ⟨rfl, rfl⟩

/-- C9 witness: two runs over one concrete stored position with one
concrete cached quote function agree. -/
theorem claim_C9_deterministic_witness :
    FondoManager.obtener_todos_fondos_con_metricas
        (fun t => if t = .str "A"
          then Option.some [("valor_actual", PyVal.num 2)] else Option.none)
        [[("ticker", .str "A"), ("valor_compra", .num 1),
          ("cantidad", .num 5)]]
      = FondoManager.obtener_todos_fondos_con_metricas
        (fun t => if t = .str "A"
          then Option.some [("valor_actual", PyVal.num 2)] else Option.none)
        [[("ticker", .str "A"), ("valor_compra", .num 1),
          ("cantidad", .num 5)]] ∧
    AccionManager.obtener_todas_acciones_con_metricas
        (fun t => if t = .str "A"
          then Option.some [("valor_actual", PyVal.num 2)] else Option.none)
        [[("ticker", .str "A"), ("valor_compra", .num 1),
          ("cantidad", .num 5)]]
      = AccionManager.obtener_todas_acciones_con_metricas
        (fun t => if t = .str "A"
          then Option.some [("valor_actual", PyVal.num 2)] else Option.none)
        [[("ticker", .str "A"), ("valor_compra", .num 1),
          ("cantidad", .num 5)]] :=
  claim_C9_deterministic _ _ _ _ (fun _ => rfl) rfl

/-- C8: for a successful fetch the series is non-empty, and on a non-empty
series `precio_inicio_ano` (year-start price) is the first close of the
series, while `precio_cierre_anterior` (previous close) is the
provider-reported previous close when that `info` field is present, else
the second-to-last close when the series has more than one point, else the
current price. -/
theorem claim_C8_derived_prices :
    (∀ (info : Record) (closes : List ℚ), closes ≠ [] →
      (precio_inicio_ano_val info closes = .num (closes.headD 0) ∧
       (∀ v, info.get? "regularMarketPreviousClose" = Option.some v →
          precio_cierre_anterior_val info closes = v) ∧
       (info.get? "regularMarketPreviousClose" = Option.none →
          1 < closes.length →
          precio_cierre_anterior_val info closes
            = .num (closes.getD (closes.length - 2) 0)) ∧
       (info.get? "regularMarketPreviousClose" = Option.none →
          closes.length = 1 →
          precio_cierre_anterior_val info closes
            = precio_actual_val info closes))) ∧
    (∀ (resp : PyM ProviderResponse) (t : String) (r : Record),
      FondoManager.obtener_datos_mercado resp t = Option.some r →
      ∃ pr, resp = .ok pr ∧ pr.closes ≠ []) ∧
    (∀ (resp : PyM ProviderResponse) (t : String) (r : Record),
      AccionManager.obtener_datos_mercado resp t = Option.some r →
      ∃ pr, resp = .ok pr ∧ pr.closes ≠ []) := by
  refine ⟨?_, ?_, ?_⟩
  · intro info closes hne
    have hemp : closes.isEmpty = false := by
      cases closes with
      | nil => exact absurd rfl hne
      | cons a l => rfl
    refine ⟨?_, ?_, ?_, ?_⟩
    · unfold precio_inicio_ano_val
      rw [hemp]
      simp
    · intro v hv
      unfold precio_cierre_anterior_val
      simp [Record.getD, hv]
    · intro hnone hlen
      unfold precio_cierre_anterior_val
      simp [Record.getD, hnone, if_pos hlen]
    · intro hnone hlen
      unfold precio_cierre_anterior_val
      have hnl : ¬ (1 < closes.length) := by omega
      simp [Record.getD, hnone, if_neg hnl]
  · intro resp t r h
    unfold FondoManager.obtener_datos_mercado at h
    cases resp with
    | error e => simp [FondoManager.fetchTry] at h
    | ok pr =>
      refine ⟨pr, rfl, ?_⟩
      by_cases hemp : pr.closes.isEmpty
      · simp [FondoManager.fetchTry, hemp] at h
      · cases hc : pr.closes with
        | nil => rw [hc] at hemp; exact absurd rfl hemp
        | cons a l => simp [hc]
  · intro resp t r h
    unfold AccionManager.obtener_datos_mercado at h
    cases resp with
    | error e => simp [AccionManager.fetchTry] at h
    | ok pr =>
      refine ⟨pr, rfl, ?_⟩
      by_cases hemp : pr.closes.isEmpty
      · simp [AccionManager.fetchTry, hemp] at h
      · cases hc : pr.closes with
        | nil => rw [hc] at hemp; exact absurd rfl hemp
        | cons a l => simp [hc]

/-- C8 witness: on the series [1, 2, 3] the year-start price is 1; with a
provider-reported previous close 9 that value is used; without it the
second-to-last close 2 is used; on the single-point series [7] the current
price is used; and a concrete successful fetch indeed came from a
non-empty series. -/
theorem claim_C8_derived_prices_witness :
    precio_inicio_ano_val [("regularMarketPreviousClose", PyVal.num 9)]
        [1, 2, 3] = .num 1 ∧
    precio_cierre_anterior_val [("regularMarketPreviousClose", PyVal.num 9)]
        [1, 2, 3] = .num 9 ∧
    precio_cierre_anterior_val [] [1, 2, 3] = .num 2 ∧
    precio_cierre_anterior_val [] [7] = precio_actual_val [] [7] ∧
    (∃ pr, (Except.ok (⟨[("regularMarketPrice", PyVal.num 1),
        ("regularMarketPreviousClose", PyVal.num 1)], [1]⟩ :
          ProviderResponse) : PyM ProviderResponse) = .ok pr ∧
      pr.closes ≠ []) := by
  have h := claim_C8_derived_prices
  refine ⟨((h.1 _ [1, 2, 3] (by simp)).1).trans (by norm_num),
    (h.1 _ [1, 2, 3] (by simp)).2.1 (.num 9) rfl,
    ((h.1 [] [1, 2, 3] (by simp)).2.2.1 rfl (by norm_num)).trans
      (by norm_num),
    (h.1 [] [7] (by simp)).2.2.2 rfl (by norm_num), ?_⟩
  exact h.2.1 _ "T"
    [("nombre", .str "T"), ("ticker", .str "T"), ("valor_actual", .num 1),
     ("cambio_diario_eur", .num 0), ("cambio_diario_pct", .num 0),
     ("cambio_ytd_pct", .num 0)]
    (by
      simp [FondoManager.obtener_datos_mercado, FondoManager.fetchTry,
        toFN, precio_actual_val, precio_actual_np,
        precio_cierre_anterior_val, precio_cierre_anterior_np,
        precio_inicio_ano_val, precio_inicio_ano_np, FN.div, FN.sub,
        FN.mulC, FN.emit, Record.getD, Record.get?, Record.has]
      norm_num [round2, round_eq])


theorem Record.get?_eq_none_of_has_false (r : Record) (k : String)
    (h : r.has k = false) : r.get? k = Option.none := by
  unfold Record.has at h
  cases hg : r.get? k with
  | none => rfl
  | some v => rw [hg] at h; simp at h

theorem toFN_pia (info : Record) (closes : List ℚ)
    (hne : closes.isEmpty = false) :
    toFN (precio_inicio_ano_val info closes)
      (precio_inicio_ano_np info closes)
      = .ok ⟨closes.headD 0, true, true⟩ := by
  unfold precio_inicio_ano_val precio_inicio_ano_np
  rw [hne]
  simp [toFN]

theorem FondoManager.fetchTry_ok_fondo (info : Record) (closes : List ℚ)
    (t : String) (a b cdp cyp : FN)
    (hne : closes.isEmpty = false)
    (hpa : toFN (precio_actual_val info closes)
      (precio_actual_np info closes) = .ok a)
    (hpca : toFN (precio_cierre_anterior_val info closes)
      (precio_cierre_anterior_np info closes) = .ok b)
    (hdiv : FN.div (FN.sub a b) b = .ok cdp)
    (hdiv2 : FN.div (FN.sub a ⟨closes.headD 0, true, true⟩)
      ⟨closes.headD 0, true, true⟩ = .ok cyp) :
    FondoManager.fetchTry (.ok ⟨info, closes⟩) t = .ok (Option.some
      [("nombre", info.getD "longName" (.str t)), ("ticker", .str t),
       ("valor_actual", a.emit), ("cambio_diario_eur", (FN.sub a b).emit),
       ("cambio_diario_pct", (cdp.mulC 100).emit),
       ("cambio_ytd_pct", (cyp.mulC 100).emit)]) := by
  simp only [FondoManager.fetchTry, hne, Bool.false_eq_true, if_false,
    hpa, hpca, hdiv, toFN_pia info closes hne, hdiv2]

theorem FN.div_pia_ok (a : FN) (x : ℚ) :
    ∃ cyp, FN.div (FN.sub a ⟨x, true, true⟩) ⟨x, true, true⟩ = .ok cyp := by
  by_cases hz : x = 0
  · exact ⟨⟨0, true, false⟩, by simp [FN.div, FN.sub, hz]⟩
  · exact ⟨⟨(a.val - x) / x, a.np || true, a.fin && true⟩,
      by simp [FN.div, FN.sub, hz]⟩

theorem FondoManager.fetch_none_iff_fondo (info : Record) (closes : List ℚ)
    (t : String) :
    FondoManager.obtener_datos_mercado (.ok ⟨info, closes⟩) t = Option.none
      ↔ closes = [] ∨
        (∃ e, toFN (precio_actual_val info closes)
          (precio_actual_np info closes) = .error e) ∨
        (∃ e, toFN (precio_cierre_anterior_val info closes)
          (precio_cierre_anterior_np info closes) = .error e) ∨
        (∃ a b, toFN (precio_actual_val info closes)
            (precio_actual_np info closes) = .ok a ∧
          toFN (precio_cierre_anterior_val info closes)
            (precio_cierre_anterior_np info closes) = .ok b ∧
          b.val = 0 ∧ a.np = false ∧ b.np = false) := by
  by_cases hemp : closes.isEmpty
  · constructor
    · intro _
      left
      cases closes with
      | nil => rfl
      | cons x l => simp at hemp
    · intro _
      unfold FondoManager.obtener_datos_mercado
      simp [FondoManager.fetchTry, hemp]
  · have hemp' : closes.isEmpty = false := by
      cases hb : closes.isEmpty
      · rfl
      · exact absurd hb hemp
    have hnenil : ¬ (closes = []) := by
      intro hc
      rw [hc] at hemp'
      simp at hemp'
    rcases hpa : toFN (precio_actual_val info closes)
        (precio_actual_np info closes) with e | a
    · constructor
      · intro _
        exact Or.inr (Or.inl ⟨e, rfl⟩)
      · intro _
        unfold FondoManager.obtener_datos_mercado
        simp only [FondoManager.fetchTry, hemp', Bool.false_eq_true,
          if_false, hpa]
    · rcases hpca : toFN (precio_cierre_anterior_val info closes)
          (precio_cierre_anterior_np info closes) with e2 | b
      · constructor
        · intro _
          exact Or.inr (Or.inr (Or.inl ⟨e2, rfl⟩))
        · intro _
          unfold FondoManager.obtener_datos_mercado
          simp only [FondoManager.fetchTry, hemp', Bool.false_eq_true,
            if_false, hpa, hpca]
      · by_cases hz : b.val = 0
        · by_cases hnp : (a.np || b.np) = true
          · have hdiv : FN.div (FN.sub a b) b = .ok ⟨0, true, false⟩ := by
              simp [FN.div, FN.sub, hz, hnp]
            obtain ⟨cyp, hdiv2⟩ := FN.div_pia_ok a (closes.headD 0)
            have hok := FondoManager.fetchTry_ok_fondo info closes t a b _ cyp
              hemp' hpa hpca hdiv hdiv2
            constructor
            · intro hnone
              unfold FondoManager.obtener_datos_mercado at hnone
              rw [hok] at hnone
              simp at hnone
            · intro hrhs
              rcases hrhs with hc | ⟨e, he⟩ | ⟨e, he⟩ |
                  ⟨a', b', ha', hb', hz', hanp, hbnp⟩
              · exact absurd hc hnenil
              · simp at he
              · simp at he
              · simp only [Except.ok.injEq] at ha' hb'
                rw [← ha'] at hanp
                rw [← hb'] at hbnp
                rw [hanp, hbnp] at hnp
                simp at hnp
          · have hanp : a.np = false ∧ b.np = false := by
              cases ha : a.np <;> cases hb : b.np <;>
                simp [ha, hb] at hnp ⊢
            have hdiv : FN.div (FN.sub a b) b
                = .error .zeroDivisionError := by
              simp [FN.div, FN.sub, hz, hanp.1, hanp.2]
            constructor
            · intro _
              exact Or.inr (Or.inr (Or.inr
                ⟨a, b, rfl, rfl, hz, hanp.1, hanp.2⟩))
            · intro _
              unfold FondoManager.obtener_datos_mercado
              simp only [FondoManager.fetchTry, hemp', Bool.false_eq_true,
                if_false, hpa, hpca, hdiv]
        · have hdiv : FN.div (FN.sub a b) b = .ok
              ⟨(a.val - b.val) / b.val, (a.np || b.np) || b.np,
               (a.fin && b.fin) && b.fin⟩ := by
            simp [FN.div, FN.sub, hz]
          obtain ⟨cyp, hdiv2⟩ := FN.div_pia_ok a (closes.headD 0)
          have hok := FondoManager.fetchTry_ok_fondo info closes t a b _ cyp
            hemp' hpa hpca hdiv hdiv2
          constructor
          · intro hnone
            unfold FondoManager.obtener_datos_mercado at hnone
            rw [hok] at hnone
            simp at hnone
          · intro hrhs
            rcases hrhs with hc | ⟨e, he⟩ | ⟨e, he⟩ |
                ⟨a', b', ha', hb', hz', hanp, hbnp⟩
            · exact absurd hc hnenil
            · simp at he
            · simp at he
            · simp only [Except.ok.injEq] at hb'
              rw [← hb'] at hz'
              exact absurd hz' hz

theorem AccionManager.fetchTry_ok_accion (info : Record) (closes : List ℚ)
    (t : String) (a b cdp cyp : FN)
    (hne : closes.isEmpty = false)
    (hpa : toFN (precio_actual_val info closes)
      (precio_actual_np info closes) = .ok a)
    (hpca : toFN (precio_cierre_anterior_val info closes)
      (precio_cierre_anterior_np info closes) = .ok b)
    (hdiv : FN.div (FN.sub a b) b = .ok cdp)
    (hdiv2 : FN.div (FN.sub a ⟨closes.headD 0, true, true⟩)
      ⟨closes.headD 0, true, true⟩ = .ok cyp) :
    AccionManager.fetchTry (.ok ⟨info, closes⟩) t = .ok (Option.some
      [("nombre", info.getD "longName" (.str t)), ("ticker", .str t),
       ("sector", info.getD "sector" (.str "No disponible")),
       ("valor_actual", a.emit), ("cambio_diario_eur", (FN.sub a b).emit),
       ("cambio_diario_pct", (cdp.mulC 100).emit),
       ("cambio_ytd_pct", (cyp.mulC 100).emit)]) := by
  simp only [AccionManager.fetchTry, hne, Bool.false_eq_true, if_false,
    hpa, hpca, hdiv, toFN_pia info closes hne, hdiv2]

theorem AccionManager.fetch_none_iff_accion (info : Record) (closes : List ℚ)
    (t : String) :
    AccionManager.obtener_datos_mercado (.ok ⟨info, closes⟩) t = Option.none
      ↔ closes = [] ∨
        (∃ e, toFN (precio_actual_val info closes)
          (precio_actual_np info closes) = .error e) ∨
        (∃ e, toFN (precio_cierre_anterior_val info closes)
          (precio_cierre_anterior_np info closes) = .error e) ∨
        (∃ a b, toFN (precio_actual_val info closes)
            (precio_actual_np info closes) = .ok a ∧
          toFN (precio_cierre_anterior_val info closes)
            (precio_cierre_anterior_np info closes) = .ok b ∧
          b.val = 0 ∧ a.np = false ∧ b.np = false) := by
  by_cases hemp : closes.isEmpty
  · constructor
    · intro _
      left
      cases closes with
      | nil => rfl
      | cons x l => simp at hemp
    · intro _
      unfold AccionManager.obtener_datos_mercado
      simp [AccionManager.fetchTry, hemp]
  · have hemp' : closes.isEmpty = false := by
      cases hb : closes.isEmpty
      · rfl
      · exact absurd hb hemp
    have hnenil : ¬ (closes = []) := by
      intro hc
      rw [hc] at hemp'
      simp at hemp'
    rcases hpa : toFN (precio_actual_val info closes)
        (precio_actual_np info closes) with e | a
    · constructor
      · intro _
        exact Or.inr (Or.inl ⟨e, rfl⟩)
      · intro _
        unfold AccionManager.obtener_datos_mercado
        simp only [AccionManager.fetchTry, hemp', Bool.false_eq_true,
          if_false, hpa]
    · rcases hpca : toFN (precio_cierre_anterior_val info closes)
          (precio_cierre_anterior_np info closes) with e2 | b
      · constructor
        · intro _
          exact Or.inr (Or.inr (Or.inl ⟨e2, rfl⟩))
        · intro _
          unfold AccionManager.obtener_datos_mercado
          simp only [AccionManager.fetchTry, hemp', Bool.false_eq_true,
            if_false, hpa, hpca]
      · by_cases hz : b.val = 0
        · by_cases hnp : (a.np || b.np) = true
          · have hdiv : FN.div (FN.sub a b) b = .ok ⟨0, true, false⟩ := by
              simp [FN.div, FN.sub, hz, hnp]
            obtain ⟨cyp, hdiv2⟩ := FN.div_pia_ok a (closes.headD 0)
            have hok := AccionManager.fetchTry_ok_accion info closes t a b _ cyp
              hemp' hpa hpca hdiv hdiv2
            constructor
            · intro hnone
              unfold AccionManager.obtener_datos_mercado at hnone
              rw [hok] at hnone
              simp at hnone
            · intro hrhs
              rcases hrhs with hc | ⟨e, he⟩ | ⟨e, he⟩ |
                  ⟨a', b', ha', hb', hz', hanp, hbnp⟩
              · exact absurd hc hnenil
              · simp at he
              · simp at he
              · simp only [Except.ok.injEq] at ha' hb'
                rw [← ha'] at hanp
                rw [← hb'] at hbnp
                rw [hanp, hbnp] at hnp
                simp at hnp
          · have hanp : a.np = false ∧ b.np = false := by
              cases ha : a.np <;> cases hb : b.np <;>
                simp [ha, hb] at hnp ⊢
            have hdiv : FN.div (FN.sub a b) b
                = .error .zeroDivisionError := by
              simp [FN.div, FN.sub, hz, hanp.1, hanp.2]
            constructor
            · intro _
              exact Or.inr (Or.inr (Or.inr
                ⟨a, b, rfl, rfl, hz, hanp.1, hanp.2⟩))
            · intro _
              unfold AccionManager.obtener_datos_mercado
              simp only [AccionManager.fetchTry, hemp', Bool.false_eq_true,
                if_false, hpa, hpca, hdiv]
        · have hdiv : FN.div (FN.sub a b) b = .ok
              ⟨(a.val - b.val) / b.val, (a.np || b.np) || b.np,
               (a.fin && b.fin) && b.fin⟩ := by
            simp [FN.div, FN.sub, hz]
          obtain ⟨cyp, hdiv2⟩ := FN.div_pia_ok a (closes.headD 0)
          have hok := AccionManager.fetchTry_ok_accion info closes t a b _ cyp
            hemp' hpa hpca hdiv hdiv2
          constructor
          · intro hnone
            unfold AccionManager.obtener_datos_mercado at hnone
            rw [hok] at hnone
            simp at hnone
          · intro hrhs
            rcases hrhs with hc | ⟨e, he⟩ | ⟨e, he⟩ |
                ⟨a', b', ha', hb', hz', hanp, hbnp⟩
            · exact absurd hc hnenil
            · simp at he
            · simp at he
            · simp only [Except.ok.injEq] at hb'
              rw [← hb'] at hz'
              exact absurd hz' hz

/-- C1 counterexample: provider metadata reports current price 100 and
previous close 0 over the non-empty series [50].  The claim says the daily
percentage change is then defined as 0 (a successful quote); in fact the
fetchers perform the division, the ZeroDivisionError is caught by the
blanket handler, and both return `None`. -/
theorem claim_C1_counterexample :
    FondoManager.obtener_datos_mercado
        (.ok ⟨[("regularMarketPrice", .num 100),
               ("regularMarketPreviousClose", .num 0)], [50]⟩) "F"
      = Option.none ∧
    AccionManager.obtener_datos_mercado
        (.ok ⟨[("regularMarketPrice", .num 100),
               ("regularMarketPreviousClose", .num 0)], [50]⟩) "F"
      = Option.none := by
  constructor
  · simp [FondoManager.obtener_datos_mercado, FondoManager.fetchTry,
      toFN, precio_actual_val, precio_actual_np, precio_cierre_anterior_val,
      precio_cierre_anterior_np, precio_inicio_ano_val,
      precio_inicio_ano_np, FN.div, FN.sub, FN.mulC, FN.emit, Record.getD,
      Record.get?, Record.has]
  · simp [AccionManager.obtener_datos_mercado, AccionManager.fetchTry,
      toFN, precio_actual_val, precio_actual_np, precio_cierre_anterior_val,
      precio_cierre_anterior_np, precio_inicio_ano_val,
      precio_inicio_ano_np, FN.div, FN.sub, FN.mulC, FN.emit, Record.getD,
      Record.get?, Record.has]

/-- C1 amended: there is no zero guard in the quote fetchers.  When the
provider reports a previous close of 0 alongside a reported current price
(both plain Python floats), the division is attempted, raises
ZeroDivisionError, and the blanket handler turns the whole fetch into
`None` — no quote with a 0 daily change is produced.  When the year-start
price (the first close of the numpy series) is 0, the numpy division
returns a non-finite float instead, and the fetch succeeds with a
non-finite `cambio_ytd_pct`, not 0. -/
theorem claim_C1_amended :
    (∀ (info : Record) (closes : List ℚ) (t : String) (p : ℚ),
      info.get? "regularMarketPrice" = Option.some (.num p) →
      info.get? "regularMarketPreviousClose" = Option.some (.num 0) →
      (FondoManager.obtener_datos_mercado (.ok ⟨info, closes⟩) t
          = Option.none ∧
       AccionManager.obtener_datos_mercado (.ok ⟨info, closes⟩) t
          = Option.none)) ∧
    (∀ (info : Record) (cs : List ℚ) (t : String) (p pc : ℚ),
      info.get? "regularMarketPrice" = Option.some (.num p) →
      info.get? "regularMarketPreviousClose" = Option.some (.num pc) →
      pc ≠ 0 →
      (∃ r, FondoManager.obtener_datos_mercado (.ok ⟨info, 0 :: cs⟩) t
          = Option.some r ∧
        r.get? "cambio_ytd_pct" = Option.some .nonfin) ∧
      (∃ r, AccionManager.obtener_datos_mercado (.ok ⟨info, 0 :: cs⟩) t
          = Option.some r ∧
        r.get? "cambio_ytd_pct" = Option.some .nonfin)) := by
  constructor
  · intro info closes t p h1 h2
    have hpa : toFN (precio_actual_val info closes)
        (precio_actual_np info closes) = .ok ⟨p, false, true⟩ := by
      unfold precio_actual_val precio_actual_np
      simp [Record.getD, Record.has, h1, toFN]
    have hpca : toFN (precio_cierre_anterior_val info closes)
        (precio_cierre_anterior_np info closes) = .ok ⟨0, false, true⟩ := by
      unfold precio_cierre_anterior_val precio_cierre_anterior_np
      simp [Record.getD, Record.has, h2, toFN]
    exact ⟨(FondoManager.fetch_none_iff_fondo info closes t).mpr
        (Or.inr (Or.inr (Or.inr ⟨_, _, hpa, hpca, rfl, rfl, rfl⟩))),
      (AccionManager.fetch_none_iff_accion info closes t).mpr
        (Or.inr (Or.inr (Or.inr ⟨_, _, hpa, hpca, rfl, rfl, rfl⟩)))⟩
  · intro info cs t p pc h1 h2 hpc
    have hpa : toFN (precio_actual_val info (0 :: cs))
        (precio_actual_np info (0 :: cs)) = .ok ⟨p, false, true⟩ := by
      unfold precio_actual_val precio_actual_np
      simp [Record.getD, Record.has, h1, toFN]
    have hpca : toFN (precio_cierre_anterior_val info (0 :: cs))
        (precio_cierre_anterior_np info (0 :: cs))
        = .ok ⟨pc, false, true⟩ := by
      unfold precio_cierre_anterior_val precio_cierre_anterior_np
      simp [Record.getD, Record.has, h2, toFN]
    have hdiv : FN.div (FN.sub ⟨p, false, true⟩ ⟨pc, false, true⟩)
        ⟨pc, false, true⟩ = .ok ⟨(p - pc) / pc, false, true⟩ := by
      simp [FN.div, FN.sub, hpc]
    have hdiv2 : FN.div (FN.sub ⟨p, false, true⟩
          ⟨(0 :: cs).headD 0, true, true⟩) ⟨(0 :: cs).headD 0, true, true⟩
        = .ok ⟨0, true, false⟩ := by
      simp [FN.div, FN.sub]
    constructor
    · refine ⟨[("nombre", info.getD "longName" (.str t)),
        ("ticker", .str t),
        ("valor_actual", FN.emit ⟨p, false, true⟩),
        ("cambio_diario_eur",
          (FN.sub ⟨p, false, true⟩ ⟨pc, false, true⟩).emit),
        ("cambio_diario_pct",
          ((⟨(p - pc) / pc, false, true⟩ : FN).mulC 100).emit),
        ("cambio_ytd_pct", ((⟨0, true, false⟩ : FN).mulC 100).emit)],
        ?_, ?_⟩
      · unfold FondoManager.obtener_datos_mercado
        rw [FondoManager.fetchTry_ok_fondo info (0 :: cs) t _ _ _ _ rfl hpa hpca
          hdiv hdiv2]
      · simp [Record.get?, FN.mulC, FN.emit]
    · refine ⟨[("nombre", info.getD "longName" (.str t)),
        ("ticker", .str t),
        ("sector", info.getD "sector" (.str "No disponible")),
        ("valor_actual", FN.emit ⟨p, false, true⟩),
        ("cambio_diario_eur",
          (FN.sub ⟨p, false, true⟩ ⟨pc, false, true⟩).emit),
        ("cambio_diario_pct",
          ((⟨(p - pc) / pc, false, true⟩ : FN).mulC 100).emit),
        ("cambio_ytd_pct", ((⟨0, true, false⟩ : FN).mulC 100).emit)],
        ?_, ?_⟩
      · unfold AccionManager.obtener_datos_mercado
        rw [AccionManager.fetchTry_ok_accion info (0 :: cs) t _ _ _ _ rfl hpa hpca
          hdiv hdiv2]
      · simp [Record.get?, FN.mulC, FN.emit]

/-- C1 amended witness: current price 8, previous close 4, year-to-date
series starting at 0 — the fetch succeeds and the year-to-date percentage
field holds a non-finite float. -/
theorem claim_C1_amended_witness :
    (FondoManager.obtener_datos_mercado
        (.ok ⟨[("regularMarketPrice", .num 8),
               ("regularMarketPreviousClose", .num 4)], [0, 6]⟩) "Y"
      = Option.none ∨
     ∃ r, FondoManager.obtener_datos_mercado
        (.ok ⟨[("regularMarketPrice", .num 8),
               ("regularMarketPreviousClose", .num 4)], [0, 6]⟩) "Y"
      = Option.some r ∧
       r.get? "cambio_ytd_pct" = Option.some .nonfin) ∧
    FondoManager.obtener_datos_mercado
        (.ok ⟨[("regularMarketPrice", .num 8),
               ("regularMarketPreviousClose", .num 0)], [3]⟩) "Y"
      = Option.none := by
  constructor
  · exact Or.inr ((claim_C1_amended.2
      [("regularMarketPrice", .num 8), ("regularMarketPreviousClose",
        .num 4)] [6] "Y" 8 4 (by decide) (by decide) (by norm_num)).1)
  · exact (claim_C1_amended.1
      [("regularMarketPrice", .num 8), ("regularMarketPreviousClose",
        .num 0)] [3] "Y" 8 (by decide) (by decide)).1

/-- C6 counterexample: the series [1, 2] is non-empty and the provider
response carries no error, yet the fetch returns Unavailable — the
provider-reported previous close 0 makes the change computation raise
internally, so "Unavailable exactly when the series is empty or a provider
error occurs" fails in the only-if direction. -/
theorem claim_C6_counterexample :
    ([1, 2] : List ℚ) ≠ [] ∧
    FondoManager.obtener_datos_mercado
        (.ok ⟨[("regularMarketPrice", .num 10),
               ("regularMarketPreviousClose", .num 0)], [1, 2]⟩) "G"
      = Option.none ∧
    AccionManager.obtener_datos_mercado
        (.ok ⟨[("regularMarketPrice", .num 10),
               ("regularMarketPreviousClose", .num 0)], [1, 2]⟩) "G"
      = Option.none := by
  refine ⟨by simp, ?_, ?_⟩
  · simp [FondoManager.obtener_datos_mercado, FondoManager.fetchTry,
      toFN, precio_actual_val, precio_actual_np, precio_cierre_anterior_val,
      precio_cierre_anterior_np, precio_inicio_ano_val,
      precio_inicio_ano_np, FN.div, FN.sub, FN.mulC, FN.emit, Record.getD,
      Record.get?, Record.has]
  · simp [AccionManager.obtener_datos_mercado, AccionManager.fetchTry,
      toFN, precio_actual_val, precio_actual_np, precio_cierre_anterior_val,
      precio_cierre_anterior_np, precio_inicio_ano_val,
      precio_inicio_ano_np, FN.div, FN.sub, FN.mulC, FN.emit, Record.getD,
      Record.get?, Record.has]

/-- C6 amended: the fetchers return Unavailable (`None`) and never raise to
the caller exactly when a provider error occurred, the year-to-date series
is empty, or the daily-change computation fails on the provider metadata —
a non-numeric current-price or previous-close field, or a previous close of
0 with both operands plain Python numbers (so the division raises instead
of going non-finite).  In particular a fetch on an empty series is
Unavailable regardless of the metadata: no price is fabricated from
metadata alone. -/
theorem claim_C6_amended :
    (∀ (e : PyErr) (t : String),
      FondoManager.obtener_datos_mercado (.error e) t = Option.none ∧
      AccionManager.obtener_datos_mercado (.error e) t = Option.none) ∧
    (∀ (info : Record) (closes : List ℚ) (t : String),
      FondoManager.obtener_datos_mercado (.ok ⟨info, closes⟩) t
          = Option.none
        ↔ closes = [] ∨
          (∃ e, toFN (precio_actual_val info closes)
            (precio_actual_np info closes) = .error e) ∨
          (∃ e, toFN (precio_cierre_anterior_val info closes)
            (precio_cierre_anterior_np info closes) = .error e) ∨
          (∃ a b, toFN (precio_actual_val info closes)
              (precio_actual_np info closes) = .ok a ∧
            toFN (precio_cierre_anterior_val info closes)
              (precio_cierre_anterior_np info closes) = .ok b ∧
            b.val = 0 ∧ a.np = false ∧ b.np = false)) ∧
    (∀ (info : Record) (closes : List ℚ) (t : String),
      AccionManager.obtener_datos_mercado (.ok ⟨info, closes⟩) t
          = Option.none
        ↔ closes = [] ∨
          (∃ e, toFN (precio_actual_val info closes)
            (precio_actual_np info closes) = .error e) ∨
          (∃ e, toFN (precio_cierre_anterior_val info closes)
            (precio_cierre_anterior_np info closes) = .error e) ∨
          (∃ a b, toFN (precio_actual_val info closes)
              (precio_actual_np info closes) = .ok a ∧
            toFN (precio_cierre_anterior_val info closes)
              (precio_cierre_anterior_np info closes) = .ok b ∧
            b.val = 0 ∧ a.np = false ∧ b.np = false)) :=
  ⟨fun _ _ => ⟨rfl, rfl⟩,
   fun info closes t => FondoManager.fetch_none_iff_fondo info closes t,
   fun info closes t => AccionManager.fetch_none_iff_accion info closes t⟩

/-- C6 amended witness: a provider error and an empty series both yield
Unavailable, and a metadata current price that is a string (a parse
failure) also yields Unavailable though the series [3] is non-empty. -/
theorem claim_C6_amended_witness :
    FondoManager.obtener_datos_mercado (.error .providerError) "W"
      = Option.none ∧
    FondoManager.obtener_datos_mercado (.ok ⟨[], []⟩) "W" = Option.none ∧
    FondoManager.obtener_datos_mercado
      (.ok ⟨[("currentPrice", .str "bad")], [3]⟩) "W" = Option.none :=
  ⟨(claim_C6_amended.1 .providerError "W").1,
   (claim_C6_amended.2.1 [] [] "W").mpr (Or.inl rfl),
   (claim_C6_amended.2.1 [("currentPrice", .str "bad")] [3] "W").mpr
     (Or.inr (Or.inl ⟨.typeError, rfl⟩))⟩

/-- C10 counterexample: with no price field in the metadata and the
series [5, 0], both fetchers succeed and report current price 0 — the
claim's parenthetical that the reported price "is never 0 on the success
path" fails (the spec's fallback-to-last-close part does hold). -/
theorem claim_C10_counterexample :
    FondoManager.obtener_datos_mercado (.ok ⟨[], [5, 0]⟩) "H"
      = Option.some [("nombre", .str "H"), ("ticker", .str "H"),
        ("valor_actual", .num 0), ("cambio_diario_eur", .num (-5)),
        ("cambio_diario_pct", .num (-100)),
        ("cambio_ytd_pct", .num (-100))] ∧
    AccionManager.obtener_datos_mercado (.ok ⟨[], [5, 0]⟩) "H"
      = Option.some [("nombre", .str "H"), ("ticker", .str "H"),
        ("sector", .str "No disponible"),
        ("valor_actual", .num 0), ("cambio_diario_eur", .num (-5)),
        ("cambio_diario_pct", .num (-100)),
        ("cambio_ytd_pct", .num (-100))] := by
  constructor
  · simp [FondoManager.obtener_datos_mercado, FondoManager.fetchTry,
      toFN, precio_actual_val, precio_actual_np, precio_cierre_anterior_val,
      precio_cierre_anterior_np, precio_inicio_ano_val,
      precio_inicio_ano_np, FN.div, FN.sub, FN.mulC, FN.emit, Record.getD,
      Record.get?, Record.has]
    norm_num [round2, round_eq]
  · simp [AccionManager.obtener_datos_mercado, AccionManager.fetchTry,
      toFN, precio_actual_val, precio_actual_np, precio_cierre_anterior_val,
      precio_cierre_anterior_np, precio_inicio_ano_val,
      precio_inicio_ano_np, FN.div, FN.sub, FN.mulC, FN.emit, Record.getD,
      Record.get?, Record.has]
    norm_num [round2, round_eq]

/-- C10 amended: when the provider metadata has neither a regular-market
price nor a current-price field, the current price falls back to the last
close of the non-empty historical series (never the hardcoded 0 default,
which is unreachable because an empty series returns Unavailable first),
and any successful fetch reports exactly that last close (rounded) — which
is 0 precisely when the last close itself is 0. -/
theorem claim_C10_amended (info : Record) (closes : List ℚ) (t : String)
    (h1 : info.has "regularMarketPrice" = false)
    (h2 : info.has "currentPrice" = false)
    (hne : closes ≠ []) :
    precio_actual_val info closes = .num (closes.getLastD 0) ∧
    (∀ r, FondoManager.obtener_datos_mercado (.ok ⟨info, closes⟩) t
        = Option.some r →
      r.get? "valor_actual"
        = Option.some (.num (round2 (closes.getLastD 0)))) ∧
    (∀ r, AccionManager.obtener_datos_mercado (.ok ⟨info, closes⟩) t
        = Option.some r →
      r.get? "valor_actual"
        = Option.some (.num (round2 (closes.getLastD 0)))) := by
  have hemp : closes.isEmpty = false := by
    cases closes with
    | nil => exact absurd rfl hne
    | cons x l => rfl
  have h1n := Record.get?_eq_none_of_has_false info "regularMarketPrice" h1
  have h2n := Record.get?_eq_none_of_has_false info "currentPrice" h2
  have hval : precio_actual_val info closes = .num (closes.getLastD 0) := by
    unfold precio_actual_val
    simp [Record.getD, h1n, h2n, hemp]
  have hnp : precio_actual_np info closes = true := by
    unfold precio_actual_np
    simp [h1, h2, hemp]
  have hpa : toFN (precio_actual_val info closes)
      (precio_actual_np info closes)
      = .ok ⟨closes.getLastD 0, true, true⟩ := by
    rw [hval, hnp]
    rfl
  refine ⟨hval, ?_, ?_⟩
  · intro r h
    rcases hpca : toFN (precio_cierre_anterior_val info closes)
        (precio_cierre_anterior_np info closes) with e | b
    · have hn := (FondoManager.fetch_none_iff_fondo info closes t).mpr
        (Or.inr (Or.inr (Or.inl ⟨e, hpca⟩)))
      rw [hn] at h
      simp at h
    · rcases hd : FN.div (FN.sub ⟨closes.getLastD 0, true, true⟩ b) b
          with e | cdp
      · exfalso
        by_cases hz : b.val = 0 <;> simp [FN.div, FN.sub, hz] at hd
      · obtain ⟨cyp, hdiv2⟩ :=
          FN.div_pia_ok ⟨closes.getLastD 0, true, true⟩ (closes.headD 0)
        have hok := FondoManager.fetchTry_ok_fondo info closes t _ b cdp cyp
          hemp hpa hpca hd hdiv2
        unfold FondoManager.obtener_datos_mercado at h
        rw [hok] at h
        simp only [Option.some.injEq] at h
        rw [← h]
        simp [Record.get?, FN.emit]
  · intro r h
    rcases hpca : toFN (precio_cierre_anterior_val info closes)
        (precio_cierre_anterior_np info closes) with e | b
    · have hn := (AccionManager.fetch_none_iff_accion info closes t).mpr
        (Or.inr (Or.inr (Or.inl ⟨e, hpca⟩)))
      rw [hn] at h
      simp at h
    · rcases hd : FN.div (FN.sub ⟨closes.getLastD 0, true, true⟩ b) b
          with e | cdp
      · exfalso
        by_cases hz : b.val = 0 <;> simp [FN.div, FN.sub, hz] at hd
      · obtain ⟨cyp, hdiv2⟩ :=
          FN.div_pia_ok ⟨closes.getLastD 0, true, true⟩ (closes.headD 0)
        have hok := AccionManager.fetchTry_ok_accion info closes t _ b cdp cyp
          hemp hpa hpca hd hdiv2
        unfold AccionManager.obtener_datos_mercado at h
        rw [hok] at h
        simp only [Option.some.injEq] at h
        rw [← h]
        simp [Record.get?, FN.emit]

/-- C10 amended witness: metadata with only a long name and the series
[2, 4]: the current-price selection is the last close 4, and the concrete
successful fetch reports 4. -/
theorem claim_C10_amended_witness :
    precio_actual_val [("longName", PyVal.str "Fund")] [2, 4] = .num 4 ∧
    Record.get? [("nombre", PyVal.str "Fund"), ("ticker", PyVal.str "W"),
      ("valor_actual", PyVal.num 4), ("cambio_diario_eur", PyVal.num 2),
      ("cambio_diario_pct", PyVal.num 100),
      ("cambio_ytd_pct", PyVal.num 100)] "valor_actual"
      = Option.some (.num 4) := by
  have h := claim_C10_amended [("longName", PyVal.str "Fund")] [2, 4] "W"
    rfl rfl (by simp)
  refine ⟨h.1.trans (by norm_num), ?_⟩
  have hf : FondoManager.obtener_datos_mercado
      (.ok ⟨[("longName", PyVal.str "Fund")], [2, 4]⟩) "W"
      = Option.some [("nombre", PyVal.str "Fund"), ("ticker", PyVal.str "W"),
        ("valor_actual", PyVal.num 4), ("cambio_diario_eur", PyVal.num 2),
        ("cambio_diario_pct", PyVal.num 100),
        ("cambio_ytd_pct", PyVal.num 100)] := by
    simp [FondoManager.obtener_datos_mercado, FondoManager.fetchTry,
      toFN, precio_actual_val, precio_actual_np, precio_cierre_anterior_val,
      precio_cierre_anterior_np, precio_inicio_ano_val,
      precio_inicio_ano_np, FN.div, FN.sub, FN.mulC, FN.emit, Record.getD,
      Record.get?, Record.has]
    norm_num [round2, round_eq]
  rw [h.2.1 _ hf]
  norm_num [round2, round_eq]

/-- A record value is a number exactly when it is some `.num x`. -/
theorem PyVal.isNum_iff (v : PyVal) : v.isNum = true ↔ ∃ x, v = .num x := by
  cases v <;> simp [PyVal.isNum]

/-- The accumulation loop of the fund aggregator, run from numeric
accumulators over records whose three summed fields are numeric, computes
the enriched list in input order and the three arithmetic sums. -/
theorem FondoManager.aggLoop_eq_fondo (quotes : PyVal → Option Record)
    (db : List Record) (ti vat gte : ℚ)
    (hnum : ∀ r ∈ db.map (FondoManager.calcular_metricas_fondo quotes),
      (r.getD "total_invertido" (.num 0)).isNum = true ∧
      (r.getD "valor_actual_total" (.num 0)).isNum = true ∧
      (r.getD "ganancia_total_eur" (.num 0)).isNum = true) :
    FondoManager.aggLoop quotes db (.num ti) (.num vat) (.num gte)
      = .ok (db.map (FondoManager.calcular_metricas_fondo quotes),
          .num (ti + sumField "total_invertido"
            (db.map (FondoManager.calcular_metricas_fondo quotes))),
          .num (vat + sumField "valor_actual_total"
            (db.map (FondoManager.calcular_metricas_fondo quotes))),
          .num (gte + sumField "ganancia_total_eur"
            (db.map (FondoManager.calcular_metricas_fondo quotes)))) := by
  induction db generalizing ti vat gte with
  | nil => simp [FondoManager.aggLoop, sumField]
  | cons f rest ih =>
    have hf := hnum (FondoManager.calcular_metricas_fondo quotes f)
      (by simp)
    obtain ⟨x1, hx1⟩ := (PyVal.isNum_iff _).mp hf.1
    obtain ⟨x2, hx2⟩ := (PyVal.isNum_iff _).mp hf.2.1
    obtain ⟨x3, hx3⟩ := (PyVal.isNum_iff _).mp hf.2.2
    have ihr := ih (ti + x1) (vat + x2) (gte + x3) (by
      intro r hr
      exact hnum r (by simp [hr]))
    simp only [FondoManager.aggLoop, hx1, hx2, hx3, PyVal.add, ihr,
      List.map_cons, sumField, List.map, List.sum_cons, PyVal.numOf,
      ← add_assoc]

/-- The accumulation loop of the equity aggregator, run from numeric
accumulators over records whose three summed fields are numeric, computes
the enriched list in input order and the three arithmetic sums. -/
theorem AccionManager.aggLoop_eq_accion (quotes : PyVal → Option Record)
    (db : List Record) (ti vat gte : ℚ)
    (hnum : ∀ r ∈ db.map (AccionManager.calcular_metricas_accion quotes),
      (r.getD "total_invertido" (.num 0)).isNum = true ∧
      (r.getD "valor_actual_total" (.num 0)).isNum = true ∧
      (r.getD "ganancia_total_eur" (.num 0)).isNum = true) :
    AccionManager.aggLoop quotes db (.num ti) (.num vat) (.num gte)
      = .ok (db.map (AccionManager.calcular_metricas_accion quotes),
          .num (ti + sumField "total_invertido"
            (db.map (AccionManager.calcular_metricas_accion quotes))),
          .num (vat + sumField "valor_actual_total"
            (db.map (AccionManager.calcular_metricas_accion quotes))),
          .num (gte + sumField "ganancia_total_eur"
            (db.map (AccionManager.calcular_metricas_accion quotes)))) := by
  induction db generalizing ti vat gte with
  | nil => simp [AccionManager.aggLoop, sumField]
  | cons f rest ih =>
    have hf := hnum (AccionManager.calcular_metricas_accion quotes f)
      (by simp)
    obtain ⟨x1, hx1⟩ := (PyVal.isNum_iff _).mp hf.1
    obtain ⟨x2, hx2⟩ := (PyVal.isNum_iff _).mp hf.2.1
    obtain ⟨x3, hx3⟩ := (PyVal.isNum_iff _).mp hf.2.2
    have ihr := ih (ti + x1) (vat + x2) (gte + x3) (by
      intro r hr
      exact hnum r (by simp [hr]))
    simp only [AccionManager.aggLoop, hx1, hx2, hx3, PyVal.add, ihr,
      List.map_cons, sumField, List.map, List.sum_cons, PyVal.numOf,
      ← add_assoc]

/-- C4: the aggregators return one enriched record per stored position, in
input order (`db.map`), and a summary whose `total_invertido`,
`valor_actual_total` and `ganancia_total_eur` are the arithmetic sums of
the corresponding per-position fields, with
`ganancia_total_pct = total_gain / total_invested * 100` when the invested
total is positive and 0 otherwise (all four rounded to 2 decimals), for
funds and for equities. -/
theorem claim_C4_aggregation :
    (∀ (quotes : PyVal → Option Record) (db : List Record),
      (∀ r ∈ db.map (FondoManager.calcular_metricas_fondo quotes),
        (r.getD "total_invertido" (.num 0)).isNum = true ∧
        (r.getD "valor_actual_total" (.num 0)).isNum = true ∧
        (r.getD "ganancia_total_eur" (.num 0)).isNum = true) →
      FondoManager.obtener_todos_fondos_con_metricas quotes db
        = .ok (db.map (FondoManager.calcular_metricas_fondo quotes),
            [("total_invertido", .num (round2 (sumField "total_invertido"
              (db.map (FondoManager.calcular_metricas_fondo quotes))))),
             ("valor_actual_total", .num (round2 (sumField
              "valor_actual_total"
              (db.map (FondoManager.calcular_metricas_fondo quotes))))),
             ("ganancia_total_eur", .num (round2 (sumField
              "ganancia_total_eur"
              (db.map (FondoManager.calcular_metricas_fondo quotes))))),
             ("ganancia_total_pct", .num (round2
              (if 0 < sumField "total_invertido"
                  (db.map (FondoManager.calcular_metricas_fondo quotes))
               then sumField "ganancia_total_eur"
                  (db.map (FondoManager.calcular_metricas_fondo quotes))
                  / sumField "total_invertido"
                  (db.map (FondoManager.calcular_metricas_fondo quotes))
                  * 100
               else 0)))])) ∧
    (∀ (quotes : PyVal → Option Record) (db : List Record),
      (∀ r ∈ db.map (AccionManager.calcular_metricas_accion quotes),
        (r.getD "total_invertido" (.num 0)).isNum = true ∧
        (r.getD "valor_actual_total" (.num 0)).isNum = true ∧
        (r.getD "ganancia_total_eur" (.num 0)).isNum = true) →
      AccionManager.obtener_todas_acciones_con_metricas quotes db
        = .ok (db.map (AccionManager.calcular_metricas_accion quotes),
            [("total_invertido", .num (round2 (sumField "total_invertido"
              (db.map (AccionManager.calcular_metricas_accion quotes))))),
             ("valor_actual_total", .num (round2 (sumField
              "valor_actual_total"
              (db.map (AccionManager.calcular_metricas_accion quotes))))),
             ("ganancia_total_eur", .num (round2 (sumField
              "ganancia_total_eur"
              (db.map (AccionManager.calcular_metricas_accion quotes))))),
             ("ganancia_total_pct", .num (round2
              (if 0 < sumField "total_invertido"
                  (db.map (AccionManager.calcular_metricas_accion quotes))
               then sumField "ganancia_total_eur"
                  (db.map (AccionManager.calcular_metricas_accion quotes))
                  / sumField "total_invertido"
                  (db.map (AccionManager.calcular_metricas_accion quotes))
                  * 100
               else 0)))])) := by
  constructor
  · intro quotes db hnum
    have hagg := FondoManager.aggLoop_eq_fondo quotes db 0 0 0 hnum
    simp only [zero_add] at hagg
    unfold FondoManager.obtener_todos_fondos_con_metricas
    rw [hagg]
    simp only [PyVal.gt0, PyVal.div, PyVal.mul, PyVal.round2E]
    by_cases hp : 0 < sumField "total_invertido"
        (db.map (FondoManager.calcular_metricas_fondo quotes))
    · simp only [hp, decide_True, if_true, if_neg hp.ne', PyVal.mul,
        PyVal.round2E]
    · simp only [hp, decide_False, if_false, PyVal.round2E]
      rfl
  · intro quotes db hnum
    have hagg := AccionManager.aggLoop_eq_accion quotes db 0 0 0 hnum
    simp only [zero_add] at hagg
    unfold AccionManager.obtener_todas_acciones_con_metricas
    rw [hagg]
    simp only [PyVal.gt0, PyVal.div, PyVal.mul, PyVal.round2E]
    by_cases hp : 0 < sumField "total_invertido"
        (db.map (AccionManager.calcular_metricas_accion quotes))
    · simp only [hp, decide_True, if_true, if_neg hp.ne', PyVal.mul,
        PyVal.round2E]
    · simp only [hp, decide_False, if_false, PyVal.round2E]
      rfl

/-- C4 witness: the claim's own example — two fund positions with
invested 1000 and 500 and gains 100 and -50 (current prices 110 fetched
and 45 stored-fallback) aggregate to total invested 1500, current total
1550, total gain 50 and total percentage 3.33. -/
theorem claim_C4_aggregation_witness :
    FondoManager.obtener_todos_fondos_con_metricas
        (fun t => if t = .str "ABC"
          then Option.some [("valor_actual", PyVal.num 110)]
          else Option.none)
        [[("ticker", .str "ABC"), ("valor_compra", .num 100),
          ("cantidad", .num 10)],
         [("ticker", .str "ZZZ"), ("valor_actual", .num 45),
          ("valor_compra", .num 50), ("cantidad", .num 10)]]
      = .ok (([[("ticker", .str "ABC"), ("valor_compra", .num 100),
            ("cantidad", .num 10)],
           [("ticker", .str "ZZZ"), ("valor_actual", .num 45),
            ("valor_compra", .num 50), ("cantidad", .num 10)]] :
              List Record).map
            (FondoManager.calcular_metricas_fondo
              (fun t => if t = .str "ABC"
                then Option.some [("valor_actual", PyVal.num 110)]
                else Option.none)),
          [("total_invertido", .num 1500),
           ("valor_actual_total", .num 1550),
           ("ganancia_total_eur", .num 50),
           ("ganancia_total_pct", .num (333 / 100))]) := by
  have hF1 : FondoManager.calcular_metricas_fondo
      (fun t => if t = .str "ABC"
        then Option.some [("valor_actual", PyVal.num 110)]
        else Option.none)
      [("ticker", .str "ABC"), ("valor_compra", .num 100),
       ("cantidad", .num 10)]
      = Record.merge (Record.merge
          [("ticker", .str "ABC"), ("valor_compra", .num 100),
           ("cantidad", .num 10)]
          (datos_mercado (fun t => if t = .str "ABC"
            then Option.some [("valor_actual", PyVal.num 110)]
            else Option.none)
            (FondoManager.valores_por_defecto
              [("ticker", .str "ABC"), ("valor_compra", .num 100),
               ("cantidad", .num 10)]) (.str "ABC")))
          [("ganancia_total_eur", .num (round2 ((110 - 100) * 10))),
           ("ganancia_total_pct",
             .num (round2 (if 0 < (100:ℚ) then (110 - 100) / 100 * 100
               else 0))),
           ("total_invertido", .num (round2 (100 * 10))),
           ("valor_actual_total", .num (round2 (110 * 10)))] := by
    unfold FondoManager.calcular_metricas_fondo
    rw [FondoManager.metricasTry_eq_fondo
      (fun t => if t = .str "ABC"
        then Option.some [("valor_actual", PyVal.num 110)]
        else Option.none)
      [("ticker", .str "ABC"), ("valor_compra", .num 100),
       ("cantidad", .num 10)]
      (.str "ABC") 100 10 110 rfl rfl rfl rfl]
  have hF2 : FondoManager.calcular_metricas_fondo
      (fun t => if t = .str "ABC"
        then Option.some [("valor_actual", PyVal.num 110)]
        else Option.none)
      [("ticker", .str "ZZZ"), ("valor_actual", .num 45),
       ("valor_compra", .num 50), ("cantidad", .num 10)]
      = Record.merge (Record.merge
          [("ticker", .str "ZZZ"), ("valor_actual", .num 45),
           ("valor_compra", .num 50), ("cantidad", .num 10)]
          (datos_mercado (fun t => if t = .str "ABC"
            then Option.some [("valor_actual", PyVal.num 110)]
            else Option.none)
            (FondoManager.valores_por_defecto
              [("ticker", .str "ZZZ"), ("valor_actual", .num 45),
               ("valor_compra", .num 50), ("cantidad", .num 10)])
            (.str "ZZZ")))
          [("ganancia_total_eur", .num (round2 ((45 - 50) * 10))),
           ("ganancia_total_pct",
             .num (round2 (if 0 < (50:ℚ) then (45 - 50) / 50 * 100
               else 0))),
           ("total_invertido", .num (round2 (50 * 10))),
           ("valor_actual_total", .num (round2 (45 * 10)))] := by
    unfold FondoManager.calcular_metricas_fondo
    rw [FondoManager.metricasTry_eq_fondo
      (fun t => if t = .str "ABC"
        then Option.some [("valor_actual", PyVal.num 110)]
        else Option.none)
      [("ticker", .str "ZZZ"), ("valor_actual", .num 45),
       ("valor_compra", .num 50), ("cantidad", .num 10)]
      (.str "ZZZ") 50 10 45 rfl rfl rfl rfl]
  have hnum : ∀ r ∈ ([[("ticker", .str "ABC"), ("valor_compra", .num 100),
        ("cantidad", .num 10)],
       [("ticker", .str "ZZZ"), ("valor_actual", .num 45),
        ("valor_compra", .num 50), ("cantidad", .num 10)]] :
          List Record).map
        (FondoManager.calcular_metricas_fondo
          (fun t => if t = .str "ABC"
            then Option.some [("valor_actual", PyVal.num 110)]
            else Option.none)),
      (r.getD "total_invertido" (.num 0)).isNum = true ∧
      (r.getD "valor_actual_total" (.num 0)).isNum = true ∧
      (r.getD "ganancia_total_eur" (.num 0)).isNum = true := by
    intro r hr
    simp only [List.map_cons, List.map_nil, List.mem_cons,
      List.not_mem_nil, or_false] at hr
    rcases hr with h | h <;> subst h <;>
      refine ⟨?_, ?_, ?_⟩ <;>
      simp [hF1, hF2, Record.getD, Record.get?_merge_four, PyVal.isNum]
  rw [claim_C4_aggregation.1 _ _ hnum]
  have hs1 : sumField "total_invertido"
      (([[("ticker", .str "ABC"), ("valor_compra", .num 100),
          ("cantidad", .num 10)],
         [("ticker", .str "ZZZ"), ("valor_actual", .num 45),
          ("valor_compra", .num 50), ("cantidad", .num 10)]] :
            List Record).map
          (FondoManager.calcular_metricas_fondo
            (fun t => if t = .str "ABC"
              then Option.some [("valor_actual", PyVal.num 110)]
              else Option.none))) = 1500 := by
    simp [sumField, hF1, hF2, Record.getD, Record.get?_merge_four,
      PyVal.numOf]
    norm_num [round2, round_eq]
  have hs2 : sumField "valor_actual_total"
      (([[("ticker", .str "ABC"), ("valor_compra", .num 100),
          ("cantidad", .num 10)],
         [("ticker", .str "ZZZ"), ("valor_actual", .num 45),
          ("valor_compra", .num 50), ("cantidad", .num 10)]] :
            List Record).map
          (FondoManager.calcular_metricas_fondo
            (fun t => if t = .str "ABC"
              then Option.some [("valor_actual", PyVal.num 110)]
              else Option.none))) = 1550 := by
    simp [sumField, hF1, hF2, Record.getD, Record.get?_merge_four,
      PyVal.numOf]
    norm_num [round2, round_eq]
  have hs3 : sumField "ganancia_total_eur"
      (([[("ticker", .str "ABC"), ("valor_compra", .num 100),
          ("cantidad", .num 10)],
         [("ticker", .str "ZZZ"), ("valor_actual", .num 45),
          ("valor_compra", .num 50), ("cantidad", .num 10)]] :
            List Record).map
          (FondoManager.calcular_metricas_fondo
            (fun t => if t = .str "ABC"
              then Option.some [("valor_actual", PyVal.num 110)]
              else Option.none))) = 50 := by
    simp [sumField, hF1, hF2, Record.getD, Record.get?_merge_four,
      PyVal.numOf]
    norm_num [round2, round_eq]
  rw [hs1, hs2, hs3, if_pos (by norm_num : (0:ℚ) < 1500)]
  norm_num [round2, round_eq]

end Portfolio
